import Mathlib

/-!
# Verification of the financial voucher ledger core

Shallow embedding of the double-entry ledger engine of the voucher system:
the `ledger` / `ledger_credit_debit` / `ledger_subcodes` / `acct_definition`
tables and the operations of `AccountingService`, `VoucherService`, `Ledger`,
`LedgerCreditDebit` and `DatabaseManager`.

Modelling conventions:
* SQLite tables are lists of rows; a `DB` value is the committed state.
* Currency amounts are `ℚ`; `Decimal.quantize(0.01, ROUND_HALF_UP)` is `round2`.
* Document numbers are `String`s; Python `split('-')` is `splitD` on the
  character list, `int(...)` is `parseDigits` (guarded by an all-digits check,
  since a non-digit makes Python `int` raise), and the SQL `LIKE '%-{year}'`
  test is the suffix check `sfx`.
* `DatabaseManager.get_connection` opens a fresh sqlite connection per call.
  So each model-level write (`Ledger.create`, `create_multiple`, ...) commits
  on its own, immediately; the `BEGIN`/`rollback` issued by the service on its
  outer connection affects none of them.  The embedding therefore threads the
  state through each write, and the outer rollback is the identity.
-/

namespace FVS


/-! ## Decimal digits, parsing, splitting -/

/-- The decimal digit character for `d` (`d ≤ 9`; larger values clamp to `'9'`,
which never happens for `n % 10`). -/
def digitChar : Nat → Char
  | 0 => '0'
  | 1 => '1'
  | 2 => '2'
  | 3 => '3'
  | 4 => '4'
  | 5 => '5'
  | 6 => '6'
  | 7 => '7'
  | 8 => '8'
  | _ => '9'

/-- Fuel-driven decimal printer (fuel `n + 1` always suffices for `n`). -/
def natDigitsAux : Nat → Nat → List Char
  | 0, _ => []
  | fuel + 1, n =>
    if n < 10 then [digitChar n]
    else natDigitsAux fuel (n / 10) ++ [digitChar (n % 10)]

/-- Decimal digit string of a natural number, as Python `str` produces it. -/
def natDigits (n : Nat) : List Char := natDigitsAux (n + 1) n

/-- Running decimal parse starting from accumulator `a` (Python `int`, given
that every character is a digit). -/
def parseFrom (a : Nat) (l : List Char) : Nat :=
  l.foldl (fun acc c => acc * 10 + (c.toNat - 48)) a

/-- Decimal parse of a digit string. -/
def parseDigits (l : List Char) : Nat := parseFrom 0 l

/-- Zero-pad the decimal digits of `n` to width 3: Python `f"{n:03d}"`. -/
def pad3 (n : Nat) : List Char :=
  List.replicate (3 - (natDigits n).length) '0' ++ natDigits n

/-- Python `str.split('-')` on a character list. -/
def splitD : List Char → List (List Char)
  | [] => [[]]
  | c :: rest =>
    if c = '-' then [] :: splitD rest
    else
      let r := splitD rest
      (c :: r.headD []) :: r.tail

/-- SQL `LIKE '%' || p` on TEXT: `p` is a suffix of the scanned string. -/
def sfx (p : List Char) : List Char → Bool
  | [] => p == []
  | c :: t => p == (c :: t) || sfx p t

/-- The document-number format of `Ledger.generate_number`:
`f"1-{s:03d}-{year}"`. -/
def mkNumber (s year : Nat) : String :=
  ⟨'1' :: '-' :: (pad3 s ++ '-' :: natDigits year)⟩

/-! ## Data model

Rows of the four tables created by `init_db` / the model `create_table`
methods.  Only the columns the services read or write are kept
(timestamps and the audit table are omitted: no modelled operation
branches on them). -/

/-- A date, ordered first by year then by day-of-year; `strftime('%Y', date)`
is the `year` component. -/
structure PyDate where
  year : Nat
  ord : Nat
  deriving DecidableEq, Repr

/-- SQL `date <= date` comparison. -/
def dateLe (a b : PyDate) : Bool :=
  decide (a.year < b.year) || (a.year == b.year && decide (a.ord ≤ b.ord))

/-- A row of `acct_definition` (columns used by `get_by_code`). -/
structure AcctRow where
  acct_code : String
  acct_description : String
  is_active : Bool
  deriving DecidableEq, Repr

/-- A row of `ledger`: the transaction header. -/
structure LedgerRow where
  id : Nat
  type : String
  number : String
  date : PyDate
  payee_code : String
  payee : String
  total_amount : ℚ
  description : Option String
  due_date : Option PyDate
  status : String
  deriving DecidableEq, Repr

/-- A row of `ledger_credit_debit`: one debit or credit line. -/
structure CDRow where
  type : String
  number : String
  date : PyDate
  acct_code : String
  acct_description : String
  amount : ℚ
  acct_type : String
  deriving DecidableEq, Repr

/-- A row of `ledger_subcodes`: one subsidiary line. -/
structure SubRow where
  type : String
  number : String
  date : PyDate
  acct_code : String
  acct_description : String
  subsidiary_code : String
  subsidiary_description : String
  amount : ℚ
  deriving DecidableEq, Repr

/-- The committed database state.  `next_id` models the `AUTOINCREMENT`
row id of `ledger` (sqlite row ids start at 1, so `next_id ≥ 1` in any
state reachable from an initialized database). -/
structure DB where
  accounts : List AcctRow
  ledger : List LedgerRow
  cd : List CDRow
  subs : List SubRow
  next_id : Nat
  deriving DecidableEq, Repr

/-- `(success, message, number)` as returned by the creation services. -/
structure SvcResult where
  success : Bool
  message : String
  number : Option String
  deriving DecidableEq, Repr

/-- Failure result with a message (`return False, msg, None`). -/
def svcFail (message : String) : SvcResult :=
  { success := false, message := message, number := none }

/-- Python truthiness of an optional string (`None` and `""` are falsy). -/
def optStrTruthy : Option String → Bool
  | none => false
  | some s => !s.isEmpty

/-- Python truthiness of an optional amount (`None` and `0` are falsy). -/
def optQTruthy : Option ℚ → Bool
  | none => false
  | some q => !(q == 0)

/-- `Decimal(str(x)).quantize(Decimal('0.01'), rounding=ROUND_HALF_UP)`:
round to 2 decimals, ties away from zero. -/
def round2 (q : ℚ) : ℚ :=
  if q < 0 then -(((⌊-q * 100 + 1 / 2⌋ : ℤ) : ℚ) / 100)
  else ((⌊q * 100 + 1 / 2⌋ : ℤ) : ℚ) / 100

/-! ## Model-layer operations (`models/*.py`)

Each of these runs on a connection of its own (`DatabaseManager.
get_connection` opens a fresh sqlite connection per call) and commits —
or, on failure, rolls back — only its own writes. -/

/-- `AccountDefinition.get_by_code`: `WHERE acct_code = ? AND is_active = 1`. -/
def acct_get_by_code (db : DB) (acct_code : String) : Option AcctRow :=
  db.accounts.find? (fun a => a.acct_code == acct_code && a.is_active)

/-- `Ledger.get_by_number`: `WHERE l.number = ?` (`number` is UNIQUE). -/
def ledger_get_by_number (db : DB) (number : String) : Option LedgerRow :=
  db.ledger.find? (fun r => r.number == number)

/-- The rows scanned by `Ledger.generate_number`:
`WHERE type = ? AND number LIKE '%-{year}'`. -/
def yearCandidates (db : DB) (ledger_type : String) (year : Nat) : List LedgerRow :=
  db.ledger.filter
    (fun r => r.type == ledger_type && sfx ('-' :: natDigits year) r.number.data)

/-- `CAST(SUBSTR(number, ...) AS INTEGER)` of the middle dash-separated
segment: sqlite parses the leading digits, yielding 0 when there are none. -/
def castSeqNum (number : String) : Nat :=
  match splitD number.data with
  | _ :: p :: _ => parseDigits (p.takeWhile Char.isDigit)
  | _ => 0

/-- `ORDER BY <key> DESC LIMIT 1`: a row whose key is maximal. -/
def maxByKey {α : Type} (key : α → Nat) : List α → Option α
  | [] => none
  | r :: rs =>
    match maxByKey key rs with
    | none => some r
    | some m => if key r ≥ key m then some r else some m

/-- The `fetch_one` of `Ledger.generate_number`. -/
def maxSeqRow (db : DB) (ledger_type : String) (year : Nat) : Option LedgerRow :=
  maxByKey (fun r => castSeqNum r.number) (yearCandidates db ledger_type year)

/-- The branch of `Ledger.generate_number` on the fetched row.  A storage
failure makes `DatabaseManager.fetch_one` swallow the exception and return
`None`, so the error path arrives here as `none`; and the generator's own
`except` branch returns the same literal `f"1-001-{year}"` that the
`sequence = 1` paths produce.  A middle segment that is empty or not all
digits makes Python `int` raise, which also lands in that `except` branch. -/
def generate_number_core (result : Option LedgerRow) (year : Nat) : String :=
  match result with
  | none => mkNumber 1 year
  | some r =>
    match splitD r.number.data with
    | [_, p, _] =>
      if p.all Char.isDigit && !p.isEmpty then mkNumber (parseDigits p + 1) year
      else mkNumber 1 year
    | _ => mkNumber 1 year

/-- `Ledger.generate_number(ledger_type, year)`. -/
def generate_number (db : DB) (ledger_type : String) (year : Nat) : String :=
  generate_number_core (maxSeqRow db ledger_type year) year

/-- `Ledger.create`: INSERT of a header row.  The UNIQUE constraint on
`number` makes a duplicate insert raise, in which case `create` logs and
returns `None` with nothing written; otherwise the row is committed at
once on this call's own connection and the new row id is returned. -/
def ledger_create (db : DB) (ledger_type : String) (transaction_date : PyDate)
    (payee_code payee : String) (total_amount : ℚ) (description : Option String)
    (due_date : Option PyDate) (number : String) : Option Nat × DB :=
  if db.ledger.any (fun r => r.number == number) then (none, db)
  else
    (some db.next_id,
      { db with
        ledger := db.ledger ++
          [{ id := db.next_id, type := ledger_type, number := number,
             date := transaction_date, payee_code := payee_code, payee := payee,
             total_amount := total_amount, description := description,
             due_date := due_date, status := "active" }],
        next_id := db.next_id + 1 })

/-- `LedgerCreditDebit.create_multiple`: one connection for the whole batch;
an empty batch returns `False`, an entry whose `acct_type` is neither `'D'`
nor `'C'` rolls the batch back and returns `False`, otherwise all rows are
committed together. -/
def cd_create_multiple (db : DB) (entries : List CDRow) : Bool × DB :=
  if entries.isEmpty then (false, db)
  else if entries.all (fun e => e.acct_type == "D" || e.acct_type == "C") then
    (true, { db with cd := db.cd ++ entries })
  else (false, db)

/-- `LedgerSubcodes.create_multiple`: empty batch returns `False`, otherwise
all rows are committed together (no per-entry validation). -/
def subs_create_multiple (db : DB) (entries : List SubRow) : Bool × DB :=
  if entries.isEmpty then (false, db)
  else (true, { db with subs := db.subs ++ entries })

/-- `Ledger.void`: `UPDATE ledger SET status='void' WHERE id = ?`.
`execute_query` reports `True` whenever the UPDATE raises no storage error,
even when it matches no row. -/
def ledger_void (db : DB) (ledger_id : Nat) : Bool × DB :=
  (true,
    { db with
      ledger := db.ledger.map
        (fun r => if r.id == ledger_id then { r with status := "void" } else r) })

/-- The credit/debit rows of one document:
`WHERE number = ?` in `LedgerCreditDebit`. -/
def cd_rows_for (db : DB) (number : String) : List CDRow :=
  db.cd.filter (fun r => r.number == number)

/-- Lexicographic `≤` on character lists: sqlite's byte-wise TEXT collation
restricted to the ASCII strings the system stores. -/
def lexLe : List Char → List Char → Bool
  | [], _ => true
  | _ :: _, [] => false
  | a :: as, b :: bs => if a = b then lexLe as bs else decide (a < b)

/-- TEXT `≤` comparison. -/
def strLeB (a b : String) : Bool := lexLe a.data b.data

/-- `ORDER BY acct_type, acct_code` on credit/debit rows. -/
def cdOrderLe (x y : CDRow) : Bool :=
  if x.acct_type == y.acct_type then strLeB x.acct_code y.acct_code
  else strLeB x.acct_type y.acct_type

/-- `LedgerCreditDebit.get_by_number`: `WHERE number = ? ORDER BY acct_type,
acct_code`. -/
def cd_get_by_number (db : DB) (number : String) : List CDRow :=
  List.insertionSort (fun x y => cdOrderLe x y = true) (cd_rows_for db number)

/-- `ORDER BY acct_code, subsidiary_code` on subsidiary rows. -/
def subOrderLe (x y : SubRow) : Bool :=
  if x.acct_code == y.acct_code then strLeB x.subsidiary_code y.subsidiary_code
  else strLeB x.acct_code y.acct_code

/-- `LedgerSubcodes.get_by_number`. -/
def subs_get_by_number (db : DB) (number : String) : List SubRow :=
  List.insertionSort (fun x y => subOrderLe x y = true)
    (db.subs.filter (fun r => r.number == number))

/-- The result dictionary of `validate_entry_balance`. -/
structure BalanceCheck where
  balanced : Bool
  total_debits : ℚ
  total_credits : ℚ
  difference : ℚ
  deriving DecidableEq, Repr

/-- `LedgerCreditDebit.validate_entry_balance`: the SQL aggregate always
returns exactly one row; `SUM` over no rows is NULL and `float(... or 0)`
coerces it to 0, so sums over the (possibly empty) filtered row list model
it exactly.  (The `if result:` else-branch of the source is unreachable for
this query.) -/
def validate_entry_balance (db : DB) (number : String) : BalanceCheck :=
  let rows := cd_rows_for db number
  let total_debits :=
    ((rows.filter (fun r => r.acct_type == "D")).map (fun r => r.amount)).sum
  let total_credits :=
    ((rows.filter (fun r => r.acct_type == "C")).map (fun r => r.amount)).sum
  { balanced := decide (|total_debits - total_credits| < 1 / 100),
    total_debits := total_debits,
    total_credits := total_credits,
    difference := |total_debits - total_credits| }

/-! ## `AccountingService` -/

/-- An input credit/debit line dictionary. -/
structure CDLine where
  acct_code : String
  acct_description : String
  amount : ℚ
  acct_type : String
  deriving DecidableEq, Repr

/-- An input subsidiary line dictionary. -/
structure SubLine where
  acct_code : String
  acct_description : String
  subsidiary_code : String
  subsidiary_description : String
  amount : ℚ
  deriving DecidableEq, Repr

/-- `sum(float(line['amount']) for line in lines if line['acct_type'] == 'D')`. -/
def debitsSum (lines : List CDLine) : ℚ :=
  ((lines.filter (fun l => l.acct_type == "D")).map (fun l => l.amount)).sum

/-- The credit-side sum of the input lines. -/
def creditsSum (lines : List CDLine) : ℚ :=
  ((lines.filter (fun l => l.acct_type == "C")).map (fun l => l.amount)).sum

/-- `AccountingService._validate_credit_debit_balance`. -/
def validate_credit_debit_balance (lines : List CDLine) (total_amount : ℚ) : Bool :=
  let total_debits := round2 (debitsSum lines)
  let total_credits := round2 (creditsSum lines)
  let ta := round2 total_amount
  decide (|total_debits - total_credits| < 1 / 100) &&
    (decide (|total_debits - ta| < 1 / 100) || decide (|total_credits - ta| < 1 / 100))

/-- Arguments of `create_voucher_payable`.  Python's `None` defaults for the
line lists are indistinguishable from `[]` under `if credit_debit_lines:`
truthiness, so both are the empty list here. -/
structure VPArgs where
  transaction_date : PyDate
  payee_code : String
  total_amount : ℚ
  description : Option String
  due_date : Option PyDate
  credit_debit_lines : List CDLine
  subsidiary_lines : List SubLine
  deriving DecidableEq, Repr

/-- An input line turned into a `ledger_credit_debit` row (amount re-rounded
per line, as the service does). -/
def toCDRow (t number : String) (d : PyDate) (l : CDLine) : CDRow :=
  { type := t, number := number, date := d, acct_code := l.acct_code,
    acct_description := l.acct_description, amount := round2 l.amount,
    acct_type := l.acct_type }

/-- An input subsidiary line turned into a `ledger_subcodes` row. -/
def toSubRow (t number : String) (d : PyDate) (l : SubLine) : SubRow :=
  { type := t, number := number, date := d, acct_code := l.acct_code,
    acct_description := l.acct_description, subsidiary_code := l.subsidiary_code,
    subsidiary_description := l.subsidiary_description, amount := round2 l.amount }

/-- Default VP entries: Debit `5000` General Expense, Credit `2000`
Accounts Payable, each for the full amount. -/
def defaultVPEntries (number : String) (d : PyDate) (total : ℚ) : List CDRow :=
  [ { type := "VP", number := number, date := d, acct_code := "5000",
      acct_description := "General Expense", amount := total, acct_type := "D" },
    { type := "VP", number := number, date := d, acct_code := "2000",
      acct_description := "Accounts Payable", amount := total, acct_type := "C" } ]

/-- The tail of `create_voucher_payable` and `create_check_voucher` after the
header insert: credit/debit rows then subsidiary rows, each batch on its own
connection; on a batch failure the service issues `conn.rollback()` on its
outer connection, which undoes nothing that the previous batches committed. -/
def create_lines_and_subs (db : DB) (cd_entries : List CDRow)
    (sub_entries : List SubRow) (ok : SvcResult) : SvcResult × DB :=
  match cd_create_multiple db cd_entries with
  | (false, db₂) => (svcFail "Failed to create credit/debit entries", db₂)
  | (true, db₂) =>
    if sub_entries.isEmpty then (ok, db₂)
    else
      match subs_create_multiple db₂ sub_entries with
      | (false, db₃) => (svcFail "Failed to create subsidiary entries", db₃)
      | (true, db₃) => (ok, db₃)

/-- `AccountingService.create_voucher_payable`. -/
def create_voucher_payable (db : DB) (a : VPArgs) : SvcResult × DB :=
  match acct_get_by_code db a.payee_code with
  | none => (svcFail ("Payee account " ++ a.payee_code ++ " not found"), db)
  | some payee_account =>
    let total_amount := round2 a.total_amount
    let vp_number := generate_number db "VP" a.transaction_date.year
    if !a.credit_debit_lines.isEmpty
        && !validate_credit_debit_balance a.credit_debit_lines total_amount then
      (svcFail "Credit/debit lines do not balance with total amount", db)
    else
      match ledger_create db "VP" a.transaction_date a.payee_code
          payee_account.acct_description total_amount a.description
          a.due_date vp_number with
      | (none, db₁) => (svcFail "Failed to create ledger entry", db₁)
      | (some _, db₁) =>
        let cd_entries :=
          if !a.credit_debit_lines.isEmpty then
            a.credit_debit_lines.map (toCDRow "VP" vp_number a.transaction_date)
          else defaultVPEntries vp_number a.transaction_date total_amount
        create_lines_and_subs db₁ cd_entries
          (a.subsidiary_lines.map (toSubRow "VP" vp_number a.transaction_date))
          { success := true, message := "Voucher Payable created successfully",
            number := some vp_number }

/-- Arguments of `AccountingService.create_check_voucher`. -/
structure CVArgs where
  transaction_date : PyDate
  payee_code : String
  total_amount : ℚ
  vp_number : Option String
  check_number : Option String
  bank_account : Option String
  description : Option String
  credit_debit_lines : List CDLine
  subsidiary_lines : List SubLine
  deriving DecidableEq, Repr

/-- Default CV entries: Debit `2000` Accounts Payable, Credit the bank
account (`bank_account or '1010'`). -/
def defaultCVEntries (number : String) (d : PyDate) (total : ℚ)
    (bank_account : Option String) : List CDRow :=
  let bank_acct_code := if optStrTruthy bank_account then bank_account.getD "" else "1010"
  let bank_acct_desc :=
    if optStrTruthy bank_account then "Bank - " ++ bank_account.getD ""
    else "Bank - Operating Account"
  [ { type := "CV", number := number, date := d, acct_code := "2000",
      acct_description := "Accounts Payable", amount := total, acct_type := "D" },
    { type := "CV", number := number, date := d, acct_code := bank_acct_code,
      acct_description := bank_acct_desc, amount := total, acct_type := "C" } ]

/-- The description built by `create_check_voucher`. -/
def cvDescription (a : CVArgs) (payee_description : String) : String :=
  (if optStrTruthy a.description then a.description.getD ""
   else "Check payment to " ++ payee_description)
  ++ (if optStrTruthy a.check_number then " - Check #" ++ a.check_number.getD "" else "")
  ++ (if optStrTruthy a.vp_number then " - Payment for " ++ a.vp_number.getD "" else "")

/-- `AccountingService.create_check_voucher`.  With a linked `vp_number` the
referenced header must exist and have type `'VP'`; its status is not
inspected, and no update of it is performed anywhere in this method. -/
def create_check_voucher (db : DB) (a : CVArgs) : SvcResult × DB :=
  match acct_get_by_code db a.payee_code with
  | none => (svcFail ("Payee account " ++ a.payee_code ++ " not found"), db)
  | some payee_account =>
    let total_amount := round2 a.total_amount
    let cv_number := generate_number db "CV" a.transaction_date.year
    let vpBad : Option String :=
      if optStrTruthy a.vp_number then
        match ledger_get_by_number db (a.vp_number.getD "") with
        | none => some ("Voucher Payable " ++ a.vp_number.getD "" ++ " not found")
        | some vp_entry =>
          if vp_entry.type == "VP" then none
          else some (a.vp_number.getD "" ++ " is not a Voucher Payable")
      else none
    match vpBad with
    | some msg => (svcFail msg, db)
    | none =>
      if !a.credit_debit_lines.isEmpty
          && !validate_credit_debit_balance a.credit_debit_lines total_amount then
        (svcFail "Credit/debit lines do not balance with total amount", db)
      else
        match ledger_create db "CV" a.transaction_date a.payee_code
            payee_account.acct_description total_amount
            (some (cvDescription a payee_account.acct_description))
            none cv_number with
        | (none, db₁) => (svcFail "Failed to create ledger entry", db₁)
        | (some _, db₁) =>
          let cd_entries :=
            if !a.credit_debit_lines.isEmpty then
              a.credit_debit_lines.map (toCDRow "CV" cv_number a.transaction_date)
            else defaultCVEntries cv_number a.transaction_date total_amount a.bank_account
          create_lines_and_subs db₁ cd_entries
            (a.subsidiary_lines.map (toSubRow "CV" cv_number a.transaction_date))
            { success := true, message := "Check Voucher created successfully",
              number := some cv_number }

/-- The view assembled by `AccountingService.get_transaction`. -/
structure TxView where
  ledger : LedgerRow
  credit_debit_entries : List CDRow
  subsidiary_entries : List SubRow
  balance_check : BalanceCheck
  is_balanced : Bool
  deriving DecidableEq, Repr

/-- `AccountingService.get_transaction`. -/
def get_transaction (db : DB) (number : String) : Option TxView :=
  match ledger_get_by_number db number with
  | none => none
  | some ledger_entry =>
    let balance_check := validate_entry_balance db number
    some { ledger := ledger_entry,
           credit_debit_entries := cd_get_by_number db number,
           subsidiary_entries := subs_get_by_number db number,
           balance_check := balance_check,
           is_balanced := balance_check.balanced }

/-- `AccountingService.void_transaction`: `NotFound` / `AlreadyVoid` /
status update to `'void'`.  The only condition checked before voiding is
`status == 'void'`; nothing is deleted. -/
def void_transaction (db : DB) (number : String) : (Bool × String) × DB :=
  match get_transaction db number with
  | none => ((false, "Transaction not found"), db)
  | some transaction =>
    if transaction.ledger.status == "void" then
      ((false, "Transaction already voided"), db)
    else
      match ledger_void db transaction.ledger.id with
      | (true, db₁) => ((true, "Transaction voided successfully"), db₁)
      | (false, db₁) => ((false, "Failed to void transaction"), db₁)

/-! ## Account ledger and trial balance -/

/-- A row of `SELECT lcd.*, l.payee, l.description FROM ledger_credit_debit
lcd JOIN ledger l ON lcd.number = l.number`. -/
structure CDJoinRow where
  row : CDRow
  payee : String
  ledger_description : Option String
  deriving DecidableEq, Repr

/-- Descending `(date, number)` order: `ORDER BY lcd.date DESC,
lcd.number DESC`. -/
def dateNumGe (x y : CDJoinRow) : Bool :=
  if x.row.date == y.row.date then strLeB y.row.number x.row.number
  else dateLe y.row.date x.row.date

/-- `LedgerCreditDebit.get_by_account`: inner join against the headers
(`number` is UNIQUE in `ledger`, so `find?` is the join partner), account
and optional date-range filter, newest first. -/
def cd_get_by_account (db : DB) (acct_code : String)
    (sd ed : Option PyDate) : List CDJoinRow :=
  let joined := db.cd.filterMap (fun r =>
    match db.ledger.find? (fun l => l.number == r.number) with
    | some l => some { row := r, payee := l.payee, ledger_description := l.description }
    | none => none)
  let rows := joined.filter (fun j =>
    j.row.acct_code == acct_code
      && (match sd with | none => true | some d => dateLe d j.row.date)
      && (match ed with | none => true | some d => dateLe j.row.date d))
  List.insertionSort (fun x y => dateNumGe x y = true) rows

/-- An entry of the account ledger with its `running_balance` annotation. -/
structure LedgerEntryView where
  entry : CDJoinRow
  running_balance : ℚ
  deriving DecidableEq, Repr

/-- The running-balance loop of `get_account_ledger`: every `'D'` line adds
its amount, every other line subtracts it, for any account alike. -/
def annotate_running : ℚ → List CDJoinRow → List LedgerEntryView
  | _, [] => []
  | acc, t :: ts =>
    let acc₁ := if t.row.acct_type == "D" then acc + t.row.amount else acc - t.row.amount
    { entry := t, running_balance := acc₁ } :: annotate_running acc₁ ts

/-- The result of `LedgerCreditDebit.get_account_balance`. -/
structure AccountBalance where
  acct_code : String
  total_debits : ℚ
  total_credits : ℚ
  balance : ℚ
  deriving DecidableEq, Repr

/-- `LedgerCreditDebit.get_account_balance` (`date <= as_of` when given). -/
def get_account_balance (db : DB) (acct_code : String)
    (as_of_date : Option PyDate) : AccountBalance :=
  let rows := db.cd.filter (fun r =>
    r.acct_code == acct_code
      && (match as_of_date with | none => true | some d => dateLe r.date d))
  let td := ((rows.filter (fun r => r.acct_type == "D")).map (fun r => r.amount)).sum
  let tc := ((rows.filter (fun r => r.acct_type == "C")).map (fun r => r.amount)).sum
  { acct_code := acct_code, total_debits := td, total_credits := tc,
    balance := td - tc }

/-- The view returned by `AccountingService.get_account_ledger`. -/
structure AccountLedgerView where
  account : AcctRow
  transactions : List LedgerEntryView
  balance : AccountBalance
  deriving DecidableEq, Repr

/-- `AccountingService.get_account_ledger` (the `include_balance` parameter
defaults to `True` and every caller uses that default; the `False` path only
omits the annotation).  An unknown account yields the `{'error': ...}`
dictionary, modelled as `none`. -/
def get_account_ledger (db : DB) (acct_code : String)
    (sd ed : Option PyDate) : Option AccountLedgerView :=
  match acct_get_by_code db acct_code with
  | none => none
  | some account =>
    some { account := account,
           transactions := annotate_running 0 (cd_get_by_account db acct_code sd ed),
           balance := get_account_balance db acct_code ed }

/-- One per-account line of the trial balance. -/
structure TBEntry where
  acct_code : String
  acct_description : String
  total_debits : ℚ
  total_credits : ℚ
  balance : ℚ
  deriving DecidableEq, Repr

/-- The optional `WHERE date <= as_of_date` filter of the trial balance. -/
def tbDateOk (as_of_date : Option PyDate) (r : CDRow) : Bool :=
  match as_of_date with | none => true | some d => dateLe r.date d

/-- One group of the trial balance `GROUP BY acct_code, acct_description`:
the conditional debit and credit sums over the rows of key `k`. -/
def tbEntryOf (rows : List CDRow) (k : String × String) : TBEntry :=
  let grp := rows.filter (fun r => (r.acct_code, r.acct_description) == k)
  let td := ((grp.filter (fun r => r.acct_type == "D")).map (fun r => r.amount)).sum
  let tc := ((grp.filter (fun r => r.acct_type == "C")).map (fun r => r.amount)).sum
  { acct_code := k.1, acct_description := k.2, total_debits := td,
    total_credits := tc, balance := td - tc }

/-- `LedgerCreditDebit.get_trial_balance`: filter by date, `GROUP BY
acct_code, acct_description` (the per-group conditional sums of `tbEntryOf`),
`HAVING (total_debits != 0 OR total_credits != 0)`, `ORDER BY acct_code`. -/
def cd_get_trial_balance (db : DB) (as_of_date : Option PyDate) : List TBEntry :=
  let rows := db.cd.filter (tbDateOk as_of_date)
  let keys := (rows.map (fun r => (r.acct_code, r.acct_description))).dedup
  let kept := (keys.map (tbEntryOf rows)).filter
    (fun e => !(e.total_debits == 0) || !(e.total_credits == 0))
  List.insertionSort (fun x y => strLeB x.acct_code y.acct_code = true) kept

/-- The report of `AccountingService.get_trial_balance`. -/
structure TrialBalanceReport where
  trial_balance : List TBEntry
  total_debits : ℚ
  total_credits : ℚ
  difference : ℚ
  balanced : Bool
  as_of_date : Option PyDate
  deriving DecidableEq, Repr

/-- `AccountingService.get_trial_balance`: totals over the per-account
entries and the `balanced` flag `abs(total_debits - total_credits) < 0.01`. -/
def get_trial_balance (db : DB) (as_of_date : Option PyDate) : TrialBalanceReport :=
  let trial_balance := cd_get_trial_balance db as_of_date
  let total_debits := (trial_balance.map (fun e => e.total_debits)).sum
  let total_credits := (trial_balance.map (fun e => e.total_credits)).sum
  { trial_balance := trial_balance, total_debits := total_debits,
    total_credits := total_credits,
    difference := |total_debits - total_credits|,
    balanced := decide (|total_debits - total_credits| < 1 / 100),
    as_of_date := as_of_date }

/-! ## `VoucherService` -/

/-- `f"{voucher_type}-{year}-{sequence:03d}"`. -/
def vsNumber (voucher_type : String) (year s : Nat) : String :=
  ⟨voucher_type.data ++ '-' :: (natDigits year ++ '-' :: pad3 s)⟩

/-- `ORDER BY number DESC LIMIT 1` — lexicographic TEXT order. -/
def maxByNumberStr : List LedgerRow → Option LedgerRow
  | [] => none
  | r :: rs =>
    match maxByNumberStr rs with
    | none => some r
    | some m => if strLeB m.number r.number then some r else some m

/-- `VoucherService._generate_voucher_number`: filters by type and
`strftime('%Y', date)`, takes the lexicographically greatest number, expects
the format `{type}-{year}-{seq}` (and falls back to sequence 1 whenever the
parts do not look like that, or `int` raises into the `except` branch, which
returns the same `f"{type}-{year}-001"`). -/
def vs_generate_voucher_number (db : DB) (voucher_type : String) (year : Nat) : String :=
  let rows := db.ledger.filter
    (fun r => r.type == voucher_type && r.date.year == year)
  match maxByNumberStr rows with
  | none => vsNumber voucher_type year 1
  | some r =>
    match splitD r.number.data with
    | [_, p₁, p₂] =>
      if p₁ == natDigits year && p₂.all Char.isDigit && !p₂.isEmpty then
        vsNumber voucher_type year (parseDigits p₂ + 1)
      else vsNumber voucher_type year 1
    | _ => vsNumber voucher_type year 1

/-- Arguments of `VoucherService.create_check_voucher`. -/
structure VSCVArgs where
  vp_number : Option String
  payee_code : Option String
  payee : Option String
  amount : Option ℚ
  check_number : Option String
  bank_account : Option String
  deriving DecidableEq, Repr

/-- The write phase of `VoucherService.create_check_voucher`, after payee
and amount are resolved.  This method really does run on one connection:
header insert, the two credit/debit inserts and the `UPDATE ledger SET
status='paid' WHERE number = ?` commit or roll back together.  A UNIQUE
violation on the header number raises and rolls everything back.  The paid
update matches on the number alone: neither type nor current status of the
referenced header is inspected. -/
def vs_ccv_write (db : DB) (today : PyDate) (a : VSCVArgs)
    (cv_number payee_code payee : String) (amount : ℚ)
    (vp_link : Option String) : SvcResult × DB :=
  if payee_code.isEmpty || payee.isEmpty || amount == 0 then
    (svcFail "Payee code, payee name, and amount are required", db)
  else if db.ledger.any (fun r => r.number == cv_number) then
    (svcFail "Error creating check voucher: UNIQUE constraint failed", db)
  else
    let bank_code := if optStrTruthy a.bank_account then a.bank_account.getD "" else "1010"
    let db₁ := { db with
      ledger := db.ledger ++
        [({ id := db.next_id, type := "CV", number := cv_number, date := today,
            payee_code := payee_code, payee := payee, total_amount := amount,
            description := some ("Check payment to " ++ payee),
            due_date := none, status := "active" } : LedgerRow)],
      next_id := db.next_id + 1 }
    let db₂ := { db₁ with
      cd := db₁.cd ++
        [({ type := "CV", number := cv_number, date := today,
            acct_code := payee_code, acct_description := payee,
            amount := amount, acct_type := "D" } : CDRow),
         ({ type := "CV", number := cv_number, date := today,
            acct_code := bank_code,
            acct_description := "Bank Payment - Check #" ++ a.check_number.getD "None",
            amount := amount, acct_type := "C" } : CDRow)] }
    let db₃ :=
      match vp_link with
      | some vpn =>
        { db₂ with
          ledger := db₂.ledger.map
            (fun r => if r.number == vpn then { r with status := "paid" } else r) }
      | none => db₂
    ({ success := true, message := "Check Voucher created successfully",
       number := some cv_number }, db₃)

/-- `VoucherService.create_check_voucher`: with a truthy `vp_number` the
linked header need only exist (no type or status check); payee and amount
default from it. -/
def vs_create_check_voucher (db : DB) (today : PyDate) (a : VSCVArgs) : SvcResult × DB :=
  let cv_number := vs_generate_voucher_number db "CV" today.year
  if optStrTruthy a.vp_number then
    match ledger_get_by_number db (a.vp_number.getD "") with
    | none =>
      (svcFail ("Voucher Payable " ++ a.vp_number.getD "" ++ " not found"), db)
    | some vp_details =>
      vs_ccv_write db today a cv_number vp_details.payee_code vp_details.payee
        (if optQTruthy a.amount then a.amount.getD 0 else vp_details.total_amount)
        (some (a.vp_number.getD ""))
  else
    vs_ccv_write db today a cv_number (a.payee_code.getD "") (a.payee.getD "")
      (a.amount.getD 0) none

/-- Closed witness for C7 at a concrete one-header database. -/
def c7DB : DB :=
  { accounts := [],
    ledger := [{ id := 1, type := "VP", number := "1-001-2025",
                 date := { year := 2025, ord := 5 }, payee_code := "V1",
                 payee := "Vendor One", total_amount := 100, description := none,
                 due_date := none, status := "active" }],
    cd := [], subs := [], next_id := 2 }

/-! ## Balance-validation (C4) -/

/-- The two conditions of the balance gate, stated over the raw inputs:
rounded debit and credit sums agree within 0.01, and one of them matches the
declared (rounded) total within 0.01. -/
def balCond (lines : List CDLine) (total : ℚ) : Prop :=
  |round2 (debitsSum lines) - round2 (creditsSum lines)| < 1 / 100 ∧
    (|round2 (debitsSum lines) - round2 total| < 1 / 100 ∨
     |round2 (creditsSum lines) - round2 total| < 1 / 100)

/-! ## Concrete scenarios for the counterexamples and code-bug evaluations -/

/-- A database holding one VP header `1-002-2025` that is already void. -/
def c2DB : DB :=
  { accounts := [{ acct_code := "VEND001", acct_description := "Vendor One",
                   is_active := true }],
    ledger := [{ id := 1, type := "VP", number := "1-002-2025",
                 date := { year := 2025, ord := 1 }, payee_code := "VEND001",
                 payee := "Vendor One", total_amount := 1500, description := none,
                 due_date := none, status := "void" }],
    cd := [], subs := [], next_id := 2 }

/-- A check voucher linked to the void VP `1-002-2025`, with default lines. -/
def c2Args : CVArgs :=
  { transaction_date := { year := 2025, ord := 40 }, payee_code := "VEND001",
    total_amount := 1500, vp_number := some "1-002-2025", check_number := none,
    bank_account := none, description := none, credit_debit_lines := [],
    subsidiary_lines := [] }

/-- A database holding one active VP header for the voucher-service scenario;
its status is `void` to exhibit the unconditional paid update. -/
def c2vsDB : DB :=
  { accounts := [],
    ledger := [{ id := 1, type := "VP", number := "1-002-2025",
                 date := { year := 2025, ord := 1 }, payee_code := "VEND001",
                 payee := "Vendor One", total_amount := 1500, description := none,
                 due_date := none, status := "void" }],
    cd := [], subs := [], next_id := 2 }

/-- `VoucherService.create_check_voucher` arguments linked to `1-002-2025`. -/
def c2vsArgs : VSCVArgs :=
  { vp_number := some "1-002-2025", payee_code := none, payee := none,
    amount := none, check_number := none, bank_account := none }

/-- A database holding one VP header that is already `paid`. -/
def c6DB : DB :=
  { accounts := [],
    ledger := [{ id := 1, type := "VP", number := "1-001-2025",
                 date := { year := 2025, ord := 5 }, payee_code := "V1",
                 payee := "Vendor One", total_amount := 100, description := none,
                 due_date := none, status := "paid" }],
    cd := [], subs := [], next_id := 2 }

/-- An empty database with one active payee account. -/
def c1DB : DB :=
  { accounts := [{ acct_code := "VEND001", acct_description := "Vendor One",
                   is_active := true }],
    ledger := [], cd := [], subs := [], next_id := 1 }

/-- Lines that pass `_validate_credit_debit_balance` (the `'X'` line counts
into neither sum) but make `create_multiple` fail after the header commit. -/
def c1Args : VPArgs :=
  { transaction_date := { year := 2025, ord := 10 }, payee_code := "VEND001",
    total_amount := 100, description := none, due_date := none,
    credit_debit_lines :=
      [ { acct_code := "5000", acct_description := "General Expense",
          amount := 100, acct_type := "D" },
        { acct_code := "2000", acct_description := "Accounts Payable",
          amount := 100, acct_type := "C" },
        { acct_code := "9999", acct_description := "Bogus",
          amount := 50, acct_type := "X" } ],
    subsidiary_lines := [] }

/-- The debit-positive signed amount of an annotated account-ledger entry:
`+amount` for a debit line, `-amount` otherwise. -/
def signedAmount (v : LedgerEntryView) : ℚ :=
  if v.entry.row.acct_type == "D" then v.entry.row.amount else -v.entry.row.amount

/-- The same signed amount on a raw joined row. -/
def signedJoin (t : CDJoinRow) : ℚ :=
  if t.row.acct_type == "D" then t.row.amount else -t.row.amount

/-- Two VP headers with sequences 1 and 3 in year 2025. -/
def c5DB : DB :=
  { accounts := [],
    ledger := [{ id := 1, type := "VP", number := "1-001-2025",
                 date := { year := 2025, ord := 1 }, payee_code := "V1",
                 payee := "Vendor One", total_amount := 10, description := none,
                 due_date := none, status := "active" },
               { id := 2, type := "VP", number := "1-003-2025",
                 date := { year := 2025, ord := 2 }, payee_code := "V1",
                 payee := "Vendor One", total_amount := 20, description := none,
                 due_date := none, status := "active" }],
    cd := [], subs := [], next_id := 3 }

/-- Scenario A lines: 800 + 700 Debit against 1500 Credit, total 1500. -/
def c4Args : VPArgs :=
  { transaction_date := { year := 2025, ord := 15 }, payee_code := "VEND001",
    total_amount := 1500, description := none, due_date := none,
    credit_debit_lines :=
      [ { acct_code := "5000", acct_description := "General Expense",
          amount := 800, acct_type := "D" },
        { acct_code := "1300", acct_description := "Prepaid", amount := 700,
          acct_type := "D" },
        { acct_code := "2000", acct_description := "Accounts Payable",
          amount := 1500, acct_type := "C" } ],
    subsidiary_lines := [] }

/-- One cash account with a single debit line for the C9 witness. -/
def c9DB : DB :=
  { accounts := [{ acct_code := "1000", acct_description := "Cash",
                   is_active := true }],
    ledger := [{ id := 1, type := "VP", number := "1-001-2025",
                 date := { year := 2025, ord := 3 }, payee_code := "V1",
                 payee := "Vendor One", total_amount := 100, description := none,
                 due_date := none, status := "active" }],
    cd := [{ type := "VP", number := "1-001-2025", date := { year := 2025, ord := 3 },
             acct_code := "1000", acct_description := "Cash", amount := 100,
             acct_type := "D" }],
    subs := [], next_id := 2 }

/-- The account-ledger view of `c9DB` for account `1000`. -/
def c9View : AccountLedgerView :=
  { account := { acct_code := "1000", acct_description := "Cash", is_active := true },
    transactions :=
      [{ entry := { row := { type := "VP", number := "1-001-2025",
                             date := { year := 2025, ord := 3 }, acct_code := "1000",
                             acct_description := "Cash", amount := 100,
                             acct_type := "D" },
                    payee := "Vendor One", ledger_description := none },
         running_balance := 100 }],
    balance := { acct_code := "1000", total_debits := 100, total_credits := 0,
                 balance := 100 } }

/-! ## Trial balance (C8) -/

/-- The debit total over every stored line within the date filter. -/
def specTotalDebits (db : DB) (as_of_date : Option PyDate) : ℚ :=
  (((db.cd.filter (tbDateOk as_of_date)).filter (fun r => r.acct_type == "D")).map
    (fun r => r.amount)).sum

/-- The credit total over every stored line within the date filter. -/
def specTotalCredits (db : DB) (as_of_date : Option PyDate) : ℚ :=
  (((db.cd.filter (tbDateOk as_of_date)).filter (fun r => r.acct_type == "C")).map
    (fun r => r.amount)).sum

/-- Debit total of one account (code and description) within the date filter. -/
def acctDebitTotal (db : DB) (as_of_date : Option PyDate) (code desc : String) : ℚ :=
  (((db.cd.filter (tbDateOk as_of_date)).filter
      (fun r => r.acct_code == code && r.acct_description == desc
        && r.acct_type == "D")).map (fun r => r.amount)).sum

/-- Credit total of one account within the date filter. -/
def acctCreditTotal (db : DB) (as_of_date : Option PyDate) (code desc : String) : ℚ :=
  (((db.cd.filter (tbDateOk as_of_date)).filter
      (fun r => r.acct_code == code && r.acct_description == desc
        && r.acct_type == "C")).map (fun r => r.amount)).sum

/-- Two balancing lines on distinct accounts for the C8 witness. -/
def c8DB : DB :=
  { accounts := [],
    ledger := [{ id := 1, type := "VP", number := "1-001-2025",
                 date := { year := 2025, ord := 3 }, payee_code := "V1",
                 payee := "Vendor One", total_amount := 100, description := none,
                 due_date := none, status := "active" }],
    cd := [{ type := "VP", number := "1-001-2025", date := { year := 2025, ord := 3 },
             acct_code := "1000", acct_description := "Cash", amount := 100,
             acct_type := "D" },
           { type := "VP", number := "1-001-2025", date := { year := 2025, ord := 3 },
             acct_code := "2000", acct_description := "Accounts Payable",
             amount := 100, acct_type := "C" }],
    subs := [], next_id := 2 }

/-- The Cash entry of the `c8DB` trial balance. -/
def c8Entry : TBEntry :=
  { acct_code := "1000", acct_description := "Cash", total_debits := 100,
    total_credits := 0, balance := 100 }

/-! ## Lemmas and claim theorems -/

lemma natDigitsAux_congr :
    ∀ (f₁ f₂ n : Nat), n < f₁ → n < f₂ → natDigitsAux f₁ n = natDigitsAux f₂ n := by
  intro f₁
  induction f₁ with
  | zero => intro f₂ n h; omega
  | succ g₁ ih =>
    intro f₂ n h₁ h₂
    match f₂ with
    | 0 => omega
    | g₂ + 1 =>
      by_cases hn : n < 10
      · show natDigitsAux (g₁ + 1) n = natDigitsAux (g₂ + 1) n
        unfold natDigitsAux
        simp [hn]
      · have e₁ : natDigitsAux (g₁ + 1) n
            = natDigitsAux g₁ (n / 10) ++ [digitChar (n % 10)] := by
          show (if n < 10 then [digitChar n]
            else natDigitsAux g₁ (n / 10) ++ [digitChar (n % 10)]) = _
          simp [hn]
        have e₂ : natDigitsAux (g₂ + 1) n
            = natDigitsAux g₂ (n / 10) ++ [digitChar (n % 10)] := by
          show (if n < 10 then [digitChar n]
            else natDigitsAux g₂ (n / 10) ++ [digitChar (n % 10)]) = _
          simp [hn]
        have hdiv : n / 10 < n := Nat.div_lt_self (by omega) (by omega)
        rw [e₁, e₂, ih g₂ (n / 10) (by omega) (by omega)]

lemma natDigits_def (n : Nat) :
    natDigits n = if n < 10 then [digitChar n]
                  else natDigits (n / 10) ++ [digitChar (n % 10)] := by
  by_cases hn : n < 10
  · show natDigitsAux (n + 1) n = _
    unfold natDigitsAux
    simp [hn]
  · have hdiv : n / 10 < n := Nat.div_lt_self (by omega) (by omega)
    have e : natDigitsAux (n + 1) n = natDigitsAux n (n / 10) ++ [digitChar (n % 10)] := by
      show (if n < 10 then [digitChar n]
        else natDigitsAux n (n / 10) ++ [digitChar (n % 10)]) = _
      simp [hn]
    show natDigitsAux (n + 1) n = _
    rw [e, natDigitsAux_congr n (n / 10 + 1) (n / 10) (by omega) (by omega)]
    simp [hn]
    rfl

lemma digitChar_isDigit : ∀ d : Nat, (digitChar d).isDigit = true
  | 0 => rfl
  | 1 => rfl
  | 2 => rfl
  | 3 => rfl
  | 4 => rfl
  | 5 => rfl
  | 6 => rfl
  | 7 => rfl
  | 8 => rfl
  | _ + 9 => rfl

lemma digitChar_toNat (d : Nat) (h : d ≤ 9) : (digitChar d).toNat - 48 = d := by
  interval_cases d <;> rfl

lemma natDigits_ne_nil (n : Nat) : natDigits n ≠ [] := by
  rw [natDigits_def]
  by_cases hn : n < 10 <;> simp [hn]

lemma mem_natDigits_isDigit (n : Nat) : ∀ c ∈ natDigits n, c.isDigit = true := by
  induction n using Nat.strong_induction_on with
  | _ n ih =>
    rw [natDigits_def]
    by_cases hn : n < 10
    · simp only [hn, if_true, List.mem_singleton]
      rintro c rfl; exact digitChar_isDigit n
    · simp only [hn, if_false, List.mem_append, List.mem_singleton]
      rintro c (hc | rfl)
      · exact ih (n / 10) (Nat.div_lt_self (by omega) (by omega)) c hc
      · exact digitChar_isDigit (n % 10)

lemma parseFrom_natDigits (n : Nat) :
    ∀ a : Nat, parseFrom a (natDigits n) = a * 10 ^ (natDigits n).length + n := by
  induction n using Nat.strong_induction_on with
  | _ n ih =>
    intro a
    rw [natDigits_def]
    by_cases hn : n < 10
    · simp only [hn, if_true]
      show a * 10 + ((digitChar n).toNat - 48) = a * 10 ^ 1 + n
      rw [digitChar_toNat n (by omega)]; ring
    · simp only [hn, if_false]
      have hdiv : n / 10 < n := Nat.div_lt_self (by omega) (by omega)
      show parseFrom a (natDigits (n / 10) ++ [digitChar (n % 10)]) = _
      unfold parseFrom
      rw [List.foldl_append]
      show parseFrom (parseFrom a (natDigits (n / 10))) [digitChar (n % 10)] = _
      rw [ih (n / 10) hdiv a]
      show (a * 10 ^ (natDigits (n / 10)).length + n / 10) * 10
            + ((digitChar (n % 10)).toNat - 48) = _
      rw [digitChar_toNat (n % 10) (by omega), List.length_append,
        List.length_singleton, pow_succ]
      have := Nat.div_add_mod n 10
      ring_nf
      omega

lemma parseDigits_natDigits (n : Nat) : parseDigits (natDigits n) = n := by
  unfold parseDigits
  rw [parseFrom_natDigits]; ring

lemma parseFrom_replicate_zero (k : Nat) : ∀ a, parseFrom a (List.replicate k '0') = a * 10 ^ k := by
  induction k with
  | zero => intro a; simp [parseFrom]
  | succ k ih =>
    intro a
    rw [List.replicate_succ]
    show parseFrom (a * 10 + ('0'.toNat - 48)) (List.replicate k '0') = _
    have h0 : '0'.toNat - 48 = 0 := rfl
    rw [h0, Nat.add_zero, ih, pow_succ]
    ring

lemma parseDigits_pad3 (n : Nat) : parseDigits (pad3 n) = n := by
  unfold parseDigits pad3 parseFrom
  rw [List.foldl_append]
  show parseFrom (parseFrom 0 (List.replicate _ '0')) (natDigits n) = n
  rw [parseFrom_replicate_zero, zero_mul, parseFrom_natDigits]
  ring

lemma mem_pad3_isDigit (n : Nat) : ∀ c ∈ pad3 n, c.isDigit = true := by
  intro c hc
  rcases List.mem_append.mp hc with h | h
  · rw [List.eq_of_mem_replicate h]; rfl
  · exact mem_natDigits_isDigit n c h

lemma pad3_all_isDigit (n : Nat) : (pad3 n).all Char.isDigit = true :=
  List.all_eq_true.mpr (mem_pad3_isDigit n)

lemma pad3_ne_nil (n : Nat) : pad3 n ≠ [] := by
  unfold pad3
  intro h
  rcases List.append_eq_nil.mp h with ⟨-, h2⟩
  exact natDigits_ne_nil n h2

lemma dash_not_mem_pad3 (n : Nat) : '-' ∉ pad3 n := by
  intro h
  have := mem_pad3_isDigit n '-' h
  simp [Char.isDigit] at this

lemma dash_not_mem_natDigits (n : Nat) : '-' ∉ natDigits n := by
  intro h
  have := mem_natDigits_isDigit n '-' h
  simp [Char.isDigit] at this

lemma splitD_no_dash (l : List Char) (h : '-' ∉ l) : splitD l = [l] := by
  induction l with
  | nil => rfl
  | cons c t ih =>
    have hc : c ≠ '-' := fun hc => h (hc ▸ List.mem_cons_self c t)
    have ht : '-' ∉ t := fun ht => h (List.mem_cons_of_mem c ht)
    have step : splitD (c :: t) = (c :: (splitD t).headD []) :: (splitD t).tail := by
      simp [splitD, hc]
    rw [step, ih ht]
    rfl

lemma splitD_append (l₁ l₂ : List Char) (h : '-' ∉ l₁) :
    splitD (l₁ ++ '-' :: l₂) = l₁ :: splitD l₂ := by
  induction l₁ with
  | nil => simp [splitD]
  | cons c t ih =>
    have hc : c ≠ '-' := fun hc => h (hc ▸ List.mem_cons_self c t)
    have ht : '-' ∉ t := fun ht => h (List.mem_cons_of_mem c ht)
    have step : splitD (c :: (t ++ '-' :: l₂))
        = (c :: (splitD (t ++ '-' :: l₂)).headD []) :: (splitD (t ++ '-' :: l₂)).tail := by
      simp [splitD, hc]
    rw [List.cons_append, step, ih ht]
    rfl

lemma splitD_mkNumber (s year : Nat) :
    splitD (mkNumber s year).data = [['1'], pad3 s, natDigits year] := by
  show splitD ('1' :: '-' :: (pad3 s ++ '-' :: natDigits year)) = _
  have h1 : splitD (('1' :: []) ++ '-' :: (pad3 s ++ '-' :: natDigits year))
      = ['1'] :: splitD (pad3 s ++ '-' :: natDigits year) :=
    splitD_append ['1'] _ (by simp)
  rw [show ('1' :: '-' :: (pad3 s ++ '-' :: natDigits year))
        = (('1' :: []) ++ '-' :: (pad3 s ++ '-' :: natDigits year)) from rfl, h1,
    splitD_append _ _ (dash_not_mem_pad3 s),
    splitD_no_dash _ (dash_not_mem_natDigits year)]

lemma sfx_append (a p : List Char) : sfx p (a ++ p) = true := by
  induction a with
  | nil =>
    show sfx p p = true
    match p with
    | [] => rfl
    | c :: t => simp [sfx]
  | cons x a ih =>
    show ((p == x :: (a ++ p)) || sfx p (a ++ p)) = true
    rw [ih, Bool.or_true]

lemma sfx_mkNumber (s year : Nat) :
    sfx ('-' :: natDigits year) (mkNumber s year).data = true := by
  show sfx ('-' :: natDigits year)
      (('1' :: '-' :: pad3 s) ++ ('-' :: natDigits year)) = true
  exact sfx_append _ _

/-! ## General supporting lemmas -/

lemma maxByKey_cons {α : Type} (key : α → Nat) (r : α) (rs : List α) :
    maxByKey key (r :: rs)
      = match maxByKey key rs with
        | none => some r
        | some m => if key r ≥ key m then some r else some m := rfl

lemma maxByKey_isSome {α : Type} (key : α → Nat) (r : α) (rs : List α) :
    (maxByKey key (r :: rs)).isSome = true := by
  rw [maxByKey_cons]
  cases maxByKey key rs with
  | none => rfl
  | some m => by_cases h : key r ≥ key m <;> simp [h]

lemma maxByKey_mem_bound {α : Type} (key : α → Nat) :
    ∀ (l : List α) (m : α), maxByKey key l = some m →
      m ∈ l ∧ ∀ x ∈ l, key x ≤ key m := by
  intro l
  induction l with
  | nil => intro m h; cases h
  | cons r rs ih =>
    intro m h
    cases hrs : maxByKey key rs with
    | none =>
      have hred : maxByKey key (r :: rs) = some r := by
        rw [maxByKey_cons, hrs]
      rw [hred] at h
      cases h
      have hnil : rs = [] := by
        cases rs with
        | nil => rfl
        | cons s ss =>
          have hs := maxByKey_isSome key s ss
          rw [hrs] at hs
          cases hs
      subst hnil
      refine ⟨List.mem_cons_self _ _, ?_⟩
      intro x hx
      rw [List.mem_singleton.mp hx]
    | some m' =>
      have hred : maxByKey key (r :: rs)
          = if key r ≥ key m' then some r else some m' := by
        rw [maxByKey_cons, hrs]
      rw [hred] at h
      obtain ⟨hmem, hbound⟩ := ih m' hrs
      by_cases hk : key r ≥ key m'
      · rw [if_pos hk] at h
        cases h
        refine ⟨List.mem_cons_self _ _, ?_⟩
        intro x hx
        rcases List.mem_cons.mp hx with rfl | hx
        · exact le_refl _
        · exact le_trans (hbound x hx) hk
      · rw [if_neg hk] at h
        cases h
        refine ⟨List.mem_cons_of_mem r hmem, ?_⟩
        intro x hx
        rcases List.mem_cons.mp hx with rfl | hx
        · omega
        · exact hbound x hx

lemma maxByKey_some_of_ne_nil {α : Type} (key : α → Nat) (l : List α) (h : l ≠ []) :
    ∃ m, maxByKey key l = some m := by
  cases l with
  | nil => exact absurd rfl h
  | cons r rs => exact Option.isSome_iff_exists.mp (maxByKey_isSome key r rs)

lemma le_foldr_max {S : List Nat} {s : Nat} (h : s ∈ S) : s ≤ S.foldr max 0 := by
  induction S with
  | nil => cases h
  | cons a S ih =>
    rcases List.mem_cons.mp h with rfl | h
    · exact le_max_left _ _
    · exact le_trans (ih h) (le_max_right _ _)

lemma foldr_max_le {S : List Nat} {b : Nat} (h : ∀ s ∈ S, s ≤ b) : S.foldr max 0 ≤ b := by
  induction S with
  | nil => exact Nat.zero_le b
  | cons a S ih =>
    exact max_le (h a (List.mem_cons_self a S))
      (ih (fun s hs => h s (List.mem_cons_of_mem a hs)))

lemma find?_map_pres {α : Type} (p : α → Bool) (f : α → α)
    (hp : ∀ y, p (f y) = p y) :
    ∀ (l : List α) (x : α), l.find? p = some x → (l.map f).find? p = some (f x) := by
  intro l
  induction l with
  | nil => intro x h; cases h
  | cons a l ih =>
    intro x h
    by_cases ha : p a = true
    · rw [List.find?_cons_of_pos l ha] at h
      cases h
      rw [List.map_cons, List.find?_cons_of_pos _ (by rw [hp]; exact ha)]
    · rw [List.find?_cons_of_neg l ha] at h
      rw [List.map_cons, List.find?_cons_of_neg _ (by rw [hp]; exact ha)]
      exact ih x h

lemma sum_map_filter_split {α : Type} (p : α → Bool) (f : α → ℚ) (l : List α) :
    ((l.filter p).map f).sum + ((l.filter (fun x => !p x)).map f).sum
      = (l.map f).sum := by
  induction l with
  | nil => simp
  | cons a l ih =>
    by_cases ha : p a = true
    · simp only [List.filter_cons, ha, Bool.not_true, Bool.false_eq_true, if_true,
        if_false, List.map_cons, List.sum_cons]
      rw [← ih]; ring
    · rw [Bool.not_eq_true] at ha
      simp only [List.filter_cons, ha, Bool.not_false, Bool.false_eq_true, if_true,
        if_false, List.map_cons, List.sum_cons]
      rw [← ih]; ring

lemma sum_map_of_all_zero {α : Type} (f : α → ℚ) (l : List α)
    (h : ∀ x ∈ l, f x = 0) : (l.map f).sum = 0 := by
  apply List.sum_eq_zero
  intro q hq
  obtain ⟨x, hx, rfl⟩ := List.mem_map.mp hq
  exact h x hx

/-- Sum over groups: if `K` lists every key of `l` without repetition, the
per-key partial sums add up to the total. -/
lemma sum_groups {κ α : Type} [BEq κ] [LawfulBEq κ] (key : α → κ) (f : α → ℚ) :
    ∀ (K : List κ), K.Nodup → ∀ l : List α, (∀ x ∈ l, key x ∈ K) →
      (K.map (fun k => ((l.filter (fun x => key x == k)).map f).sum)).sum
        = (l.map f).sum := by
  intro K
  induction K with
  | nil =>
    intro _ l hl
    match l with
    | [] => simp
    | x :: _ => cases hl x (List.mem_cons_self x _)
  | cons k K ih =>
    intro hnd l hl
    have hknotin : k ∉ K := (List.nodup_cons.mp hnd).1
    have hndK : K.Nodup := (List.nodup_cons.mp hnd).2
    rw [List.map_cons, List.sum_cons]
    have hrest :
        (K.map (fun k' => ((l.filter (fun x => key x == k')).map f).sum)).sum
          = (K.map (fun k' =>
              (((l.filter (fun x => !(key x == k))).filter
                  (fun x => key x == k')).map f).sum)).sum := by
      apply congrArg
      apply List.map_congr_left
      intro k' hk'
      have heq : l.filter (fun x => key x == k')
          = (l.filter (fun x => !(key x == k))).filter (fun x => key x == k') := by
        rw [List.filter_filter]
        apply List.filter_congr
        intro x _
        by_cases hxk : key x = k'
        · have hkk : k' ≠ k := fun he => hknotin (he ▸ hk')
          simp [hxk, hkk]
        · simp [hxk]
      rw [heq]
    rw [hrest, ih hndK (l.filter (fun x => !(key x == k)))
      (by
        intro x hx
        have hxl := List.mem_filter.mp hx
        have hmem := hl x hxl.1
        rcases List.mem_cons.mp hmem with hk | hk
        · exfalso
          have hx2 := hxl.2
          rw [hk] at hx2
          simp at hx2
        · exact hk)]
    rw [← sum_map_filter_split (fun x => key x == k) f l]

lemma takeWhile_of_all {α : Type} (p : α → Bool) (l : List α)
    (h : ∀ x ∈ l, p x = true) : l.takeWhile p = l :=
  List.takeWhile_eq_self_iff.mpr h

lemma round2_int_div (m : ℤ) : round2 ((m : ℚ) / 100) = (m : ℚ) / 100 := by
  unfold round2
  by_cases hm : ((m : ℚ) / 100) < 0
  · rw [if_pos hm]
    have h₁ : -((m : ℚ) / 100) * 100 + 1 / 2 = ((-m : ℤ) : ℚ) + 1 / 2 := by
      push_cast; ring
    have h₂ : ⌊((-m : ℤ) : ℚ) + 1 / 2⌋ = -m := by
      rw [Int.floor_int_add]; norm_num
    rw [h₁, h₂]
    push_cast
    ring
  · rw [if_neg hm]
    have h₁ : (m : ℚ) / 100 * 100 + 1 / 2 = (m : ℚ) + 1 / 2 := by ring
    have h₂ : ⌊(m : ℚ) + 1 / 2⌋ = m := by
      rw [Int.floor_int_add]; norm_num
    rw [h₁, h₂]

lemma pad3_isEmpty_false (n : Nat) : (pad3 n).isEmpty = false := by
  cases hp : pad3 n with
  | nil => exact absurd hp (pad3_ne_nil n)
  | cons a t => rfl

lemma castSeqNum_mkNumber (s year : Nat) : castSeqNum (mkNumber s year) = s := by
  unfold castSeqNum
  rw [splitD_mkNumber]
  show parseDigits ((pad3 s).takeWhile Char.isDigit) = s
  rw [takeWhile_of_all _ _ (mem_pad3_isDigit s), parseDigits_pad3]

lemma generate_number_core_mkNumber (m : LedgerRow) (sm year : Nat)
    (hnum : m.number = mkNumber sm year) :
    generate_number_core (some m) year = mkNumber (sm + 1) year := by
  have hstep : generate_number_core (some m) year
      = match splitD m.number.data with
        | [_, p, _] =>
          if p.all Char.isDigit && !p.isEmpty then mkNumber (parseDigits p + 1) year
          else mkNumber 1 year
        | _ => mkNumber 1 year := rfl
  rw [hstep, hnum, splitD_mkNumber]
  show (if (pad3 sm).all Char.isDigit && !(pad3 sm).isEmpty
        then mkNumber (parseDigits (pad3 sm) + 1) year
        else mkNumber 1 year) = _
  rw [pad3_all_isDigit, pad3_isEmpty_false]
  show mkNumber (parseDigits (pad3 sm) + 1) year = _
  rw [parseDigits_pad3]

lemma round2_idem (q : ℚ) : round2 (round2 q) = round2 q := by
  by_cases hq : q < 0
  · have h : round2 q = ((-⌊-q * 100 + 1 / 2⌋ : ℤ) : ℚ) / 100 := by
      unfold round2
      rw [if_pos hq]
      push_cast
      ring
    rw [h, round2_int_div]
  · have h : round2 q = ((⌊q * 100 + 1 / 2⌋ : ℤ) : ℚ) / 100 := by
      unfold round2
      rw [if_neg hq]
    rw [h, round2_int_div]

/-! ## Claim theorems -/

/-- C5: for every kind and year, the generated next document number has the
exact format `1-{seq:03d}-{year}` where `seq` is one more than the maximum
sequence already used among the stored numbers of that kind and year
(enumerated by `S`), and `seq` is `1` when no number exists yet for that kind
and year (`S = []`, as after a year change). -/
theorem claim_C5_generate_number (db : DB) (t : String) (year : Nat) (S : List Nat)
    (h : (yearCandidates db t year).map (fun r => r.number)
          = S.map (fun s => mkNumber s year)) :
    generate_number db t year = mkNumber (S.foldr max 0 + 1) year := by
  unfold generate_number maxSeqRow
  cases hS : S with
  | nil =>
    rw [hS] at h
    have hF : yearCandidates db t year = [] := by
      have := List.map_eq_nil_iff.mp (by rw [h]; rfl)
      exact this
    rw [hF]
    rfl
  | cons s₀ S' =>
    have hFne : yearCandidates db t year ≠ [] := by
      intro hnil
      rw [hnil, hS] at h
      cases h
    obtain ⟨m, hm⟩ := maxByKey_some_of_ne_nil (fun r => castSeqNum r.number) _ hFne
    obtain ⟨hmem, hbound⟩ := maxByKey_mem_bound _ _ _ hm
    have hmnum : m.number ∈ S.map (fun s => mkNumber s year) := by
      rw [← h]
      exact List.mem_map_of_mem (fun r => r.number) hmem
    obtain ⟨sm, hsmS, hsm⟩ := List.mem_map.mp hmnum
    have hub : ∀ s' ∈ S, s' ≤ sm := by
      intro s' hs'
      have hmm : mkNumber s' year ∈ (yearCandidates db t year).map (fun r => r.number) := by
        rw [h]
        exact List.mem_map_of_mem _ hs'
      obtain ⟨x, hxF, hxnum⟩ := List.mem_map.mp hmm
      have hb := hbound x hxF
      rw [hxnum, castSeqNum_mkNumber] at hb
      rw [← hsm, castSeqNum_mkNumber] at hb
      exact hb
    have hmax : S.foldr max 0 = sm :=
      le_antisymm (foldr_max_le hub) (le_foldr_max hsmS)
    rw [← hS, hm, generate_number_core_mkNumber m sm year hsm.symm, hmax]

lemma string_eq_empty_of_isEmpty {s : String} (h : s.isEmpty = true) : s = "" := by
  cases s with
  | mk data =>
    cases data with
    | nil => rfl
    | cons c t =>
      simp [String.isEmpty, String.endPos, String.utf8ByteSize] at h
      have h₂ : String.utf8Len t + c.utf8Size = 0 := congrArg String.Pos.byteIdx h
      have := Char.utf8Size_pos c
      omega

lemma isEmpty_false_of_ne {s : String} (h : s ≠ "") : s.isEmpty = false := by
  cases hs : s.isEmpty
  · rfl
  · exact absurd (string_eq_empty_of_isEmpty hs) h

/-! ## Lemmas on `void_transaction` -/

lemma void_transaction_not_found (db : DB) (number : String)
    (h : ledger_get_by_number db number = none) :
    void_transaction db number = ((false, "Transaction not found"), db) := by
  unfold void_transaction get_transaction
  rw [h]

lemma void_transaction_already_void (db : DB) (number : String) (hdr : LedgerRow)
    (hfind : ledger_get_by_number db number = some hdr) (hst : hdr.status = "void") :
    void_transaction db number = ((false, "Transaction already voided"), db) := by
  unfold void_transaction get_transaction
  rw [hfind]
  simp [hst]

lemma void_transaction_voids (db : DB) (number : String) (hdr : LedgerRow)
    (hfind : ledger_get_by_number db number = some hdr) (hst : hdr.status ≠ "void") :
    void_transaction db number
      = ((true, "Transaction voided successfully"), (ledger_void db hdr.id).2) := by
  unfold void_transaction get_transaction
  rw [hfind]
  have hb : (hdr.status == "void") = false := beq_eq_false_iff_ne.mpr hst
  simp [hb, ledger_void]

lemma ledger_get_by_number_after_void (db : DB) (number : String) (hdr : LedgerRow)
    (hfind : ledger_get_by_number db number = some hdr) :
    ledger_get_by_number (ledger_void db hdr.id).2 number
      = some { hdr with status := "void" } := by
  unfold ledger_get_by_number ledger_void at *
  have hp : ∀ y : LedgerRow,
      ((if y.id == hdr.id then { y with status := "void" } else y).number == number)
        = (y.number == number) := by
    intro y
    by_cases hy : y.id == hdr.id <;> simp [hy]
  have := find?_map_pres (fun r => r.number == number)
    (fun y => if y.id == hdr.id then { y with status := "void" } else y) hp
    db.ledger hdr hfind
  rw [this]
  simp

/-- C7: `void_transaction` returns the not-found failure when no header has
the number, the already-void failure (state unchanged) when the header is
already void, and otherwise succeeds, setting the status to void while
leaving every credit/debit and subsidiary row untouched; a second call on
the same number then returns the already-void failure and changes nothing. -/
theorem claim_C7_void_transaction (db : DB) (number : String) :
    (ledger_get_by_number db number = none →
       void_transaction db number = ((false, "Transaction not found"), db)) ∧
    (∀ hdr, ledger_get_by_number db number = some hdr → hdr.status = "void" →
       void_transaction db number = ((false, "Transaction already voided"), db)) ∧
    (∀ hdr, ledger_get_by_number db number = some hdr → hdr.status ≠ "void" →
       (void_transaction db number).1 = (true, "Transaction voided successfully") ∧
       ((void_transaction db number).2).cd = db.cd ∧
       ((void_transaction db number).2).subs = db.subs ∧
       ledger_get_by_number ((void_transaction db number).2) number
         = some { hdr with status := "void" } ∧
       void_transaction ((void_transaction db number).2) number
         = ((false, "Transaction already voided"), (void_transaction db number).2)) := by
  refine ⟨void_transaction_not_found db number,
          void_transaction_already_void db number, ?_⟩
  intro hdr hfind hst
  have hv := void_transaction_voids db number hdr hfind hst
  have hfind₂ := ledger_get_by_number_after_void db number hdr hfind
  rw [hv]
  refine ⟨rfl, rfl, rfl, hfind₂, ?_⟩
  exact void_transaction_already_void _ number { hdr with status := "void" } hfind₂ rfl

unseal Rat.mul Rat.add Rat.inv Rat.sub in

theorem claim_C7_void_transaction_witness :
    (void_transaction c7DB "1-001-2025").1 = (true, "Transaction voided successfully") ∧
    ((void_transaction c7DB "1-001-2025").2).cd = c7DB.cd ∧
    void_transaction ((void_transaction c7DB "1-001-2025").2) "1-001-2025"
      = ((false, "Transaction already voided"), (void_transaction c7DB "1-001-2025").2) := by
  have h := (claim_C7_void_transaction c7DB "1-001-2025").2.2
    { id := 1, type := "VP", number := "1-001-2025",
      date := { year := 2025, ord := 5 }, payee_code := "V1",
      payee := "Vendor One", total_amount := 100, description := none,
      due_date := none, status := "active" }
    (by decide) (by decide)
  exact ⟨h.1, h.2.1, h.2.2.2.2⟩

/-! ## Lemmas on the check-voucher services -/

lemma vs_ccv_write_paid (db : DB) (today : PyDate) (a : VSCVArgs)
    (cv pc py : String) (amt : ℚ) (vpn : String)
    (hsucc : (vs_ccv_write db today a cv pc py amt (some vpn)).1.success = true) :
    ∀ r ∈ ((vs_ccv_write db today a cv pc py amt (some vpn)).2).ledger,
      r.number = vpn → r.status = "paid" := by
  unfold vs_ccv_write at *
  by_cases h₁ : (pc.isEmpty || py.isEmpty || (amt == 0)) = true
  · rw [if_pos h₁] at hsucc
    cases hsucc
  · rw [if_neg h₁] at hsucc ⊢
    by_cases h₂ : (db.ledger.any (fun r => r.number == cv)) = true
    · rw [if_pos h₂] at hsucc
      cases hsucc
    · rw [if_neg h₂]
      dsimp only
      intro r hr hrn
      obtain ⟨r₀, hr₀, hg⟩ := List.mem_map.mp hr
      by_cases hn : (r₀.number == vpn) = true
      · rw [if_pos hn] at hg
        rw [← hg]
      · rw [if_neg hn] at hg
        subst hg
        rw [hrn] at hn
        simp at hn

lemma vs_create_check_voucher_link (db : DB) (today : PyDate) (a : VSCVArgs)
    (vpn : String) (hvp : a.vp_number = some vpn) (hne : vpn ≠ "")
    (hsucc : (vs_create_check_voucher db today a).1.success = true) :
    (∃ vp, ledger_get_by_number db vpn = some vp) ∧
    (∀ r ∈ ((vs_create_check_voucher db today a).2).ledger,
       r.number = vpn → r.status = "paid") := by
  unfold vs_create_check_voucher at *
  rw [hvp] at hsucc ⊢
  have htruthy : optStrTruthy (some vpn) = true := by
    simp [optStrTruthy, isEmpty_false_of_ne hne]
  rw [if_pos htruthy] at hsucc ⊢
  cases hlook : ledger_get_by_number db ((some vpn).getD "") with
  | none =>
    rw [hlook] at hsucc
    cases hsucc
  | some vp =>
    rw [hlook] at hsucc
    dsimp only [Option.getD] at hsucc ⊢
    have hlook' : ledger_get_by_number db vpn = some vp := hlook
    refine ⟨⟨vp, hlook'⟩, ?_⟩
    exact vs_ccv_write_paid db today a _ _ _ _ vpn hsucc

lemma ledger_create_none {db : DB} {t : String} {td : PyDate} {pc py : String}
    {ta : ℚ} {d : Option String} {dd : Option PyDate} {num : String} {db₁ : DB}
    (h : ledger_create db t td pc py ta d dd num = (none, db₁)) : db₁ = db := by
  unfold ledger_create at h
  by_cases hdup : (db.ledger.any fun r => r.number == num) = true
  · rw [if_pos hdup] at h
    cases h
    rfl
  · rw [if_neg hdup] at h
    cases h

lemma ledger_create_some {db : DB} {t : String} {td : PyDate} {pc py : String}
    {ta : ℚ} {d : Option String} {dd : Option PyDate} {num : String}
    {i : Nat} {db₁ : DB}
    (h : ledger_create db t td pc py ta d dd num = (some i, db₁)) :
    db₁.ledger = db.ledger ++
      [{ id := db.next_id, type := t, number := num, date := td,
         payee_code := pc, payee := py, total_amount := ta, description := d,
         due_date := dd, status := "active" }] := by
  unfold ledger_create at h
  by_cases hdup : (db.ledger.any fun r => r.number == num) = true
  · rw [if_pos hdup] at h
    cases h
  · rw [if_neg hdup] at h
    cases h
    rfl

lemma create_lines_and_subs_ledger (db : DB) (es : List CDRow) (ss : List SubRow)
    (ok : SvcResult) : ((create_lines_and_subs db es ss ok).2).ledger = db.ledger := by
  unfold create_lines_and_subs cd_create_multiple subs_create_multiple
  by_cases h₁ : es.isEmpty = true
  · simp [h₁]
  · by_cases h₂ : (es.all fun e => e.acct_type == "D" || e.acct_type == "C") = true
    · by_cases h₃ : ss.isEmpty = true
      · simp [h₁, h₂, h₃]
      · simp [h₁, h₂, h₃]
    · simp [h₁, h₂]

lemma create_check_voucher_ledger (db : DB) (a : CVArgs) :
    ((create_check_voucher db a).2).ledger = db.ledger ∨
    ∃ row : LedgerRow, ((create_check_voucher db a).2).ledger = db.ledger ++ [row] := by
  unfold create_check_voucher
  cases hacct : acct_get_by_code db a.payee_code with
  | none => exact Or.inl rfl
  | some payee =>
    dsimp only
    split
    · exact Or.inl rfl
    · split
      · exact Or.inl rfl
      · cases hlc : ledger_create db "CV" a.transaction_date a.payee_code
          payee.acct_description (round2 a.total_amount)
          (some (cvDescription a payee.acct_description)) none
          (generate_number db "CV" a.transaction_date.year) with
        | mk o db₁ =>
          cases o with
          | none =>
            exact Or.inl (show db₁.ledger = db.ledger from by
              rw [ledger_create_none hlc])
          | some i =>
            exact Or.inr ⟨_, by
              show ((create_lines_and_subs db₁ _ _ _).2).ledger = _
              rw [create_lines_and_subs_ledger, ledger_create_some hlc]⟩

lemma create_check_voucher_success_vp (db : DB) (a : CVArgs) (vpn : String)
    (hvp : a.vp_number = some vpn) (hne : vpn ≠ "")
    (hsucc : (create_check_voucher db a).1.success = true) :
    ∃ vp, ledger_get_by_number db vpn = some vp ∧ vp.type = "VP" := by
  unfold create_check_voucher at hsucc
  cases hacct : acct_get_by_code db a.payee_code with
  | none =>
    rw [hacct] at hsucc
    cases hsucc
  | some payee =>
    rw [hacct] at hsucc
    dsimp only at hsucc
    rw [hvp] at hsucc
    have htr : optStrTruthy (some vpn) = true := by
      simp [optStrTruthy, isEmpty_false_of_ne hne]
    rw [if_pos htr] at hsucc
    cases hlook : ledger_get_by_number db ((some vpn).getD "") with
    | none =>
      rw [hlook] at hsucc
      cases hsucc
    | some vp =>
      rw [hlook] at hsucc
      dsimp only at hsucc
      by_cases htype : (vp.type == "VP") = true
      · exact ⟨vp, hlook, by simpa using htype⟩
      · rw [if_neg htype] at hsucc
        cases hsucc

lemma validate_iff (lines : List CDLine) (total : ℚ) :
    validate_credit_debit_balance lines total = true ↔ balCond lines total := by
  unfold validate_credit_debit_balance balCond
  simp only [Bool.and_eq_true, Bool.or_eq_true, decide_eq_true_eq]

lemma balCond_round2 (lines : List CDLine) (total : ℚ) :
    balCond lines (round2 total) ↔ balCond lines total := by
  unfold balCond
  rw [round2_idem]

lemma create_voucher_payable_reject (db : DB) (a : VPArgs)
    (hne : a.credit_debit_lines ≠ [])
    (hbal : validate_credit_debit_balance a.credit_debit_lines (round2 a.total_amount)
      = false) :
    (create_voucher_payable db a).1.success = false ∧
    (create_voucher_payable db a).2 = db := by
  unfold create_voucher_payable
  cases hacct : acct_get_by_code db a.payee_code with
  | none => exact ⟨rfl, rfl⟩
  | some payee =>
    dsimp only
    have hmt : a.credit_debit_lines.isEmpty = false := by
      simp [List.isEmpty_iff, hne]
    have hcond : (!a.credit_debit_lines.isEmpty
        && !validate_credit_debit_balance a.credit_debit_lines (round2 a.total_amount))
          = true := by
      rw [hmt, hbal]
      rfl
    rw [if_pos hcond]
    exact ⟨rfl, rfl⟩

lemma create_voucher_payable_success (db : DB) (a : VPArgs) (payee : AcctRow)
    (hacct : acct_get_by_code db a.payee_code = some payee)
    (hne : a.credit_debit_lines ≠ [])
    (hbal : validate_credit_debit_balance a.credit_debit_lines (round2 a.total_amount)
      = true)
    (htypes : (a.credit_debit_lines.all
        fun l => l.acct_type == "D" || l.acct_type == "C") = true)
    (hfresh : (db.ledger.any
        fun r => r.number == generate_number db "VP" a.transaction_date.year) = false)
    (hsubs : a.subsidiary_lines = []) :
    (create_voucher_payable db a).1.success = true := by
  unfold create_voucher_payable
  rw [hacct]
  dsimp only
  have hmt : a.credit_debit_lines.isEmpty = false := by
    simp [List.isEmpty_iff, hne]
  have hcond : (!a.credit_debit_lines.isEmpty
      && !validate_credit_debit_balance a.credit_debit_lines (round2 a.total_amount))
        = false := by
    rw [hmt, hbal]
    rfl
  rw [if_neg (by rw [hcond]; exact Bool.false_ne_true)]
  have hcreate : ledger_create db "VP" a.transaction_date a.payee_code
      payee.acct_description (round2 a.total_amount) a.description a.due_date
      (generate_number db "VP" a.transaction_date.year)
      = (some db.next_id,
         { db with
           ledger := db.ledger ++
             [{ id := db.next_id, type := "VP",
                number := generate_number db "VP" a.transaction_date.year,
                date := a.transaction_date, payee_code := a.payee_code,
                payee := payee.acct_description,
                total_amount := round2 a.total_amount, description := a.description,
                due_date := a.due_date, status := "active" }],
           next_id := db.next_id + 1 }) := by
    unfold ledger_create
    rw [if_neg (by rw [hfresh]; exact Bool.false_ne_true)]
  have hmapne : (a.credit_debit_lines.map
      (toCDRow "VP" (generate_number db "VP" a.transaction_date.year)
        a.transaction_date)).isEmpty = false := by
    cases hl : a.credit_debit_lines with
    | nil => exact absurd hl hne
    | cons x xs => rfl
  have hmapall : ((a.credit_debit_lines.map
      (toCDRow "VP" (generate_number db "VP" a.transaction_date.year)
        a.transaction_date)).all
      fun e => e.acct_type == "D" || e.acct_type == "C") = true := by
    rw [List.all_eq_true] at htypes ⊢
    intro e he
    obtain ⟨l, hl, rfl⟩ := List.mem_map.mp he
    exact htypes l hl
  rw [hcreate]
  dsimp only
  rw [if_pos (by rw [hmt]; rfl)]
  unfold create_lines_and_subs cd_create_multiple
  rw [if_neg (by rw [hmapne]; exact Bool.false_ne_true), if_pos hmapall]
  dsimp only
  rw [hsubs]
  rfl

/-- C4: with a non-empty input line list, transaction creation rejects the
lines — leaving the state untouched, so no header is persisted — unless the
rounded Debit and Credit sums agree within 0.01 and one of them matches the
declared total within 0.01 (`balCond`); the validator accepts exactly the
lists satisfying `balCond`, and when it holds (and the payee resolves, the
lines carry valid sides, the generated number is fresh and no subsidiary
lines are passed) the creation succeeds. -/
theorem claim_C4_balance_gate (db : DB) (a : VPArgs) :
    (validate_credit_debit_balance a.credit_debit_lines a.total_amount = true ↔
       balCond a.credit_debit_lines a.total_amount) ∧
    (a.credit_debit_lines ≠ [] → ¬ balCond a.credit_debit_lines a.total_amount →
       (create_voucher_payable db a).1.success = false ∧
       (create_voucher_payable db a).2 = db) ∧
    (a.credit_debit_lines ≠ [] → balCond a.credit_debit_lines a.total_amount →
       ∀ payee, acct_get_by_code db a.payee_code = some payee →
         (a.credit_debit_lines.all
            fun l => l.acct_type == "D" || l.acct_type == "C") = true →
         (db.ledger.any
            fun r => r.number == generate_number db "VP" a.transaction_date.year)
           = false →
         a.subsidiary_lines = [] →
         (create_voucher_payable db a).1.success = true) := by
  refine ⟨validate_iff _ _, ?_, ?_⟩
  · intro hne hnot
    apply create_voucher_payable_reject db a hne
    rw [← Bool.not_eq_true]
    intro hcontra
    exact hnot ((balCond_round2 _ _).mp ((validate_iff _ _).mp hcontra))
  · intro hne hbal payee hacct htypes hfresh hsubs
    exact create_voucher_payable_success db a payee hacct hne
      ((validate_iff _ _).mpr ((balCond_round2 _ _).mpr hbal)) htypes hfresh hsubs

unseal Rat.mul Rat.add Rat.inv Rat.sub in

/-- C1 (code bug): a concrete `create_voucher_payable` call that passes the
balance gate, commits its header (`Ledger.create` commits on a connection of
its own) and then fails inserting the credit/debit batch: the call reports
failure, yet the header `1-001-2025` stays committed with no lines — a
partially visible state that the outer `conn.rollback()` cannot undo because
it runs on a different connection than the child writes. -/
theorem claim_C1_partial_commit :
    (create_voucher_payable c1DB c1Args).1.success = false ∧
    (create_voucher_payable c1DB c1Args).1.message
      = "Failed to create credit/debit entries" ∧
    ((create_voucher_payable c1DB c1Args).2).ledger.map (fun r => (r.number, r.status))
      = [("1-001-2025", "active")] ∧
    ((create_voucher_payable c1DB c1Args).2).cd = [] := by
  decide

unseal Rat.mul Rat.add Rat.inv Rat.sub in

/-- C2 (counterexample): `create_check_voucher` linked to the *void* VP
`1-002-2025` succeeds, and the VP's status remains `void` (never `paid`),
contradicting "the call fails unless … not void" and "on every successful
call the referenced VP's status transitions active → paid". -/
theorem claim_C2_counterexample :
    (create_check_voucher c2DB c2Args).1.success = true ∧
    ledger_get_by_number ((create_check_voucher c2DB c2Args).2) "1-002-2025"
      = some { id := 1, type := "VP", number := "1-002-2025",
               date := { year := 2025, ord := 1 }, payee_code := "VEND001",
               payee := "Vendor One", total_amount := 1500, description := none,
               due_date := none, status := "void" } := by
  decide

/-- C2 (amended): in `AccountingService.create_check_voucher` a linked number
must resolve to an existing header of kind VP, but its void status is not
checked and no existing header — in particular the linked VP — ever has its
status changed (the VP is not marked paid).  In
`VoucherService.create_check_voucher` the linked header need only exist, and
on success every header carrying the linked number is set to `paid`,
whatever status it had before. -/
theorem claim_C2_check_voucher_link (db : DB) :
    (∀ (a : CVArgs) (vpn : String), a.vp_number = some vpn → vpn ≠ "" →
       (create_check_voucher db a).1.success = true →
       ∃ vp, ledger_get_by_number db vpn = some vp ∧ vp.type = "VP") ∧
    (∀ (a : CVArgs) (vpn : String) (vp : LedgerRow),
       ledger_get_by_number db vpn = some vp →
       ledger_get_by_number ((create_check_voucher db a).2) vpn = some vp) ∧
    (∀ (today : PyDate) (a : VSCVArgs) (vpn : String),
       a.vp_number = some vpn → vpn ≠ "" →
       (vs_create_check_voucher db today a).1.success = true →
       (∃ vp, ledger_get_by_number db vpn = some vp) ∧
       (∀ r ∈ ((vs_create_check_voucher db today a).2).ledger,
          r.number = vpn → r.status = "paid")) := by
  refine ⟨?_, ?_, ?_⟩
  · intro a vpn hvp hne hsucc
    exact create_check_voucher_success_vp db a vpn hvp hne hsucc
  · intro a vpn vp hfind
    rcases create_check_voucher_ledger db a with h | ⟨row, h⟩
    · show ((create_check_voucher db a).2).ledger.find? (fun r => r.number == vpn)
        = some vp
      rw [h]
      exact hfind
    · show ((create_check_voucher db a).2).ledger.find? (fun r => r.number == vpn)
        = some vp
      rw [h, List.find?_append]
      unfold ledger_get_by_number at hfind
      rw [hfind]
      rfl
  · intro today a vpn hvp hne hsucc
    exact vs_create_check_voucher_link db today a vpn hvp hne hsucc

unseal Rat.mul Rat.add Rat.inv Rat.sub in

/-- Witness for C2 (amended) at the concrete scenarios: the linked header of
the successful accounting-service call exists with kind VP, and the
voucher-service call marks every header numbered `1-002-2025` paid. -/
theorem claim_C2_check_voucher_link_witness :
    (∃ vp, ledger_get_by_number c2DB "1-002-2025" = some vp ∧ vp.type = "VP") ∧
    (∀ r ∈ ((vs_create_check_voucher c2vsDB { year := 2025, ord := 50 }
        c2vsArgs).2).ledger, r.number = "1-002-2025" → r.status = "paid") := by
  refine ⟨(claim_C2_check_voucher_link c2DB).1 c2Args "1-002-2025" rfl
      (by decide) (by decide), ?_⟩
  exact ((claim_C2_check_voucher_link c2vsDB).2.2 { year := 2025, ord := 50 }
      c2vsArgs "1-002-2025" rfl (by decide) (by decide)).2

/-- C3 (counterexample): on a failed lookup — `fetch_one` maps every storage
error to `None`, and the generator's own `except` branch returns the same
literal — `generate_number` returns the defaulted sequence-1 number
`"1-001-{year}"` instead of any error result (its return type has no error
shape at all). -/
theorem claim_C3_counterexample :
    generate_number_core none 2025 = "1-001-2025" ∧
    generate_number_core none 2025 = mkNumber 1 2025 := by
  exact ⟨by decide, rfl⟩

/-- C3 (amended): for every year, a lookup failure inside the number
generator produces the default sequence-1 number `1-001-{year}` — silently,
with no error surfaced. -/
theorem claim_C3_default_on_lookup_failure (year : Nat) :
    generate_number_core none year = mkNumber 1 year ∧
    (mkNumber 1 year).data = '1' :: '-' :: '0' :: '0' :: '1' :: '-' :: natDigits year :=
  ⟨rfl, rfl⟩

unseal Rat.mul Rat.add Rat.inv Rat.sub in

/-- C6 (counterexample): `void_transaction` on the *paid* header
`1-001-2025` succeeds and moves it to `void` — the paid → void transition
the claim rules out. -/
theorem claim_C6_counterexample :
    (void_transaction c6DB "1-001-2025").1
      = (true, "Transaction voided successfully") ∧
    ledger_get_by_number ((void_transaction c6DB "1-001-2025").2) "1-001-2025"
      = some { id := 1, type := "VP", number := "1-001-2025",
               date := { year := 2025, ord := 5 }, payee_code := "V1",
               payee := "Vendor One", total_amount := 100, description := none,
               due_date := none, status := "void" } := by
  decide

/-- C6 (amended): `void_transaction` moves any header that is not already
void — active or paid alike — to void, and leaves an already-void header
unchanged; the linked-CV path of `VoucherService.create_check_voucher` sets
the linked header to paid regardless of its previous status.  So the
realized transitions are: non-void → void via voiding (including
paid → void), and any-status → paid for a linked header (including
void → paid); only the already-void check guards `void_transaction`. -/
theorem claim_C6_status_transitions (db : DB) (number : String) :
    (∀ hdr, ledger_get_by_number db number = some hdr → hdr.status ≠ "void" →
       (void_transaction db number).1.1 = true ∧
       ledger_get_by_number ((void_transaction db number).2) number
         = some { hdr with status := "void" }) ∧
    (∀ hdr, ledger_get_by_number db number = some hdr → hdr.status = "void" →
       (void_transaction db number).2 = db) ∧
    (∀ (today : PyDate) (a : VSCVArgs), a.vp_number = some number → number ≠ "" →
       (vs_create_check_voucher db today a).1.success = true →
       ∀ r ∈ ((vs_create_check_voucher db today a).2).ledger,
         r.number = number → r.status = "paid") := by
  refine ⟨?_, ?_, ?_⟩
  · intro hdr hfind hst
    rw [void_transaction_voids db number hdr hfind hst]
    exact ⟨rfl, ledger_get_by_number_after_void db number hdr hfind⟩
  · intro hdr hfind hst
    rw [void_transaction_already_void db number hdr hfind hst]
  · intro today a hvp hne hsucc
    exact (vs_create_check_voucher_link db today a number hvp hne hsucc).2

unseal Rat.mul Rat.add Rat.inv Rat.sub in

/-- Witness for C6 (amended): voiding the paid header of `c6DB` succeeds and
its status becomes void. -/
theorem claim_C6_status_transitions_witness :
    (void_transaction c6DB "1-001-2025").1.1 = true ∧
    ledger_get_by_number ((void_transaction c6DB "1-001-2025").2) "1-001-2025"
      = some { id := 1, type := "VP", number := "1-001-2025",
               date := { year := 2025, ord := 5 }, payee_code := "V1",
               payee := "Vendor One", total_amount := 100, description := none,
               due_date := none, status := "void" } := by
  exact (claim_C6_status_transitions c6DB "1-001-2025").1
    { id := 1, type := "VP", number := "1-001-2025",
      date := { year := 2025, ord := 5 }, payee_code := "V1",
      payee := "Vendor One", total_amount := 100, description := none,
      due_date := none, status := "paid" }
    (by decide) (by decide)

/-- C10: a number with no stored credit/debit lines — whether or not any
header exists for it — is reported as balanced: zero debits, zero credits,
zero difference, `balanced = true`; and `get_transaction` of a line-less
header embeds that same balanced verdict. -/
theorem claim_C10_missing_lines_balanced (db : DB) (number : String)
    (h : cd_rows_for db number = []) :
    validate_entry_balance db number
      = { balanced := true, total_debits := 0, total_credits := 0, difference := 0 } ∧
    (∀ hdr, ledger_get_by_number db number = some hdr →
       ∃ t, get_transaction db number = some t ∧ t.is_balanced = true ∧
         t.balance_check.total_debits = 0 ∧ t.balance_check.total_credits = 0) := by
  have hv : validate_entry_balance db number
      = { balanced := true, total_debits := 0, total_credits := 0, difference := 0 } := by
    unfold validate_entry_balance
    rw [h]
    norm_num
  refine ⟨hv, ?_⟩
  intro hdr hfind
  refine ⟨{ ledger := hdr,
            credit_debit_entries := cd_get_by_number db number,
            subsidiary_entries := subs_get_by_number db number,
            balance_check := validate_entry_balance db number,
            is_balanced := (validate_entry_balance db number).balanced },
    ?_, ?_, ?_, ?_⟩
  · unfold get_transaction
    rw [hfind]
  · show (validate_entry_balance db number).balanced = true
    rw [hv]
  · show (validate_entry_balance db number).total_debits = 0
    rw [hv]
  · show (validate_entry_balance db number).total_credits = 0
    rw [hv]

/-- Witness for C10: in `c7DB` the header `1-001-2025` exists with no
credit/debit lines, and is reported balanced. -/
theorem claim_C10_missing_lines_balanced_witness :
    validate_entry_balance c7DB "1-001-2025"
      = { balanced := true, total_debits := 0, total_credits := 0, difference := 0 } ∧
    ∃ t, get_transaction c7DB "1-001-2025" = some t ∧ t.is_balanced = true ∧
      t.balance_check.total_debits = 0 ∧ t.balance_check.total_credits = 0 := by
  have h := claim_C10_missing_lines_balanced c7DB "1-001-2025" (by decide)
  refine ⟨h.1, h.2 ?_ ?_⟩
  · exact { id := 1, type := "VP", number := "1-001-2025",
            date := { year := 2025, ord := 5 }, payee_code := "V1",
            payee := "Vendor One", total_amount := 100, description := none,
            due_date := none, status := "active" }
  · decide

lemma annotate_entries (l : List CDJoinRow) :
    ∀ acc, (annotate_running acc l).map (fun v => v.entry) = l := by
  induction l with
  | nil => intro acc; rfl
  | cons t ts ih =>
    intro acc
    show ({ entry := t, running_balance := _ } : LedgerEntryView).entry
        :: (annotate_running _ ts).map (fun v => v.entry) = t :: ts
    rw [ih]

lemma annotate_get (l : List CDJoinRow) :
    ∀ (acc : ℚ) (i : Nat) (hi : i < (annotate_running acc l).length),
      ((annotate_running acc l).get ⟨i, hi⟩).running_balance
        = acc + ((l.take (i + 1)).map signedJoin).sum := by
  induction l with
  | nil => intro acc i hi; cases hi
  | cons t ts ih =>
    intro acc i hi
    cases i with
    | zero =>
      show (if t.row.acct_type == "D" then acc + t.row.amount else acc - t.row.amount)
        = acc + ([t].map signedJoin).sum
      have hsj : ([t].map signedJoin).sum = signedJoin t := by simp
      rw [hsj]
      unfold signedJoin
      by_cases hD : (t.row.acct_type == "D") = true
      · rw [if_pos hD, if_pos hD]
      · rw [if_neg hD, if_neg hD]
        ring
    | succ i =>
      have hi' : i < (annotate_running
          (if t.row.acct_type == "D" then acc + t.row.amount else acc - t.row.amount)
          ts).length := by
        exact Nat.succ_lt_succ_iff.mp hi
      show ((annotate_running _ ts).get ⟨i, hi'⟩).running_balance
        = acc + (((t :: ts).take (i + 2)).map signedJoin).sum
      rw [ih _ i hi']
      show _ = acc + ((t :: ts.take (i + 1)).map signedJoin).sum
      rw [List.map_cons, List.sum_cons]
      unfold signedJoin
      by_cases hD : (t.row.acct_type == "D") = true
      · rw [if_pos hD, if_pos hD]
        ring
      · rw [if_neg hD, if_neg hD]
        ring

lemma annotate_rb_congr (l : List CDJoinRow) :
    ∀ (l' : List CDJoinRow) (acc : ℚ),
      l.map (fun t => (t.row.acct_type, t.row.amount))
        = l'.map (fun t => (t.row.acct_type, t.row.amount)) →
      (annotate_running acc l).map (fun v => v.running_balance)
        = (annotate_running acc l').map (fun v => v.running_balance) := by
  induction l with
  | nil =>
    intro l' acc h
    cases l' with
    | nil => rfl
    | cons t ts => cases h
  | cons t ts ih =>
    intro l' acc h
    cases l' with
    | nil => cases h
    | cons t' ts' =>
      rw [List.map_cons, List.map_cons] at h
      have h₁ := (List.cons.injEq _ _ _ _).mp h
      have hty : t.row.acct_type = t'.row.acct_type := congrArg Prod.fst h₁.1
      have ham : t.row.amount = t'.row.amount := congrArg Prod.snd h₁.1
      show (if t.row.acct_type == "D" then acc + t.row.amount else acc - t.row.amount)
          :: (annotate_running _ ts).map (fun v => v.running_balance)
        = (if t'.row.acct_type == "D" then acc + t'.row.amount else acc - t'.row.amount)
          :: (annotate_running _ ts').map (fun v => v.running_balance)
      rw [hty, ham, ih ts' _ h₁.2]

/-- C9: every running balance returned by `get_account_ledger` is the sum of
the debit-positive signed amounts of the entries up to and including that
position (each Debit adds its amount, each Credit subtracts it); and the
balance sequence depends only on the `(side, amount)` sequence of the
entries — identically for every account, with no dependence on the
account's category or normal-balance side. -/
theorem claim_C9_running_balance (db : DB) (code : String) (sd ed : Option PyDate)
    (v : AccountLedgerView) (hv : get_account_ledger db code sd ed = some v) :
    (∀ (i : Nat) (hi : i < v.transactions.length),
       (v.transactions.get ⟨i, hi⟩).running_balance
         = ((v.transactions.take (i + 1)).map signedAmount).sum) ∧
    (∀ (db' : DB) (code' : String) (sd' ed' : Option PyDate) (v' : AccountLedgerView),
       get_account_ledger db' code' sd' ed' = some v' →
       v.transactions.map (fun t => (t.entry.row.acct_type, t.entry.row.amount))
         = v'.transactions.map (fun t => (t.entry.row.acct_type, t.entry.row.amount)) →
       v.transactions.map (fun t => t.running_balance)
         = v'.transactions.map (fun t => t.running_balance)) := by
  have htx : ∀ (dbx : DB) (cx : String) (sx ex : Option PyDate) (vx : AccountLedgerView),
      get_account_ledger dbx cx sx ex = some vx →
      vx.transactions = annotate_running 0 (cd_get_by_account dbx cx sx ex) := by
    intro dbx cx sx ex vx hvx
    unfold get_account_ledger at hvx
    cases hacct : acct_get_by_code dbx cx with
    | none =>
      rw [hacct] at hvx
      cases hvx
    | some account =>
      rw [hacct] at hvx
      cases hvx
      rfl
  constructor
  · intro i hi
    have h₀ := htx db code sd ed v hv
    have hg := List.get_of_eq h₀ ⟨i, hi⟩
    rw [hg, annotate_get _ 0 i (h₀ ▸ hi), zero_add, h₀]
    have hmap : (annotate_running 0 (cd_get_by_account db code sd ed)).map signedAmount
        = (cd_get_by_account db code sd ed).map signedJoin := by
      have h₁ : (annotate_running 0 (cd_get_by_account db code sd ed)).map signedAmount
          = ((annotate_running 0 (cd_get_by_account db code sd ed)).map
              (fun v => v.entry)).map signedJoin := by
        rw [List.map_map]
        rfl
      rw [h₁, annotate_entries]
    rw [List.map_take, List.map_take, hmap]
  · intro db' code' sd' ed' v' hv' hsame
    have h₀ := htx db code sd ed v hv
    have h₀' := htx db' code' sd' ed' v' hv'
    rw [h₀, h₀'] at hsame ⊢
    apply annotate_rb_congr
    have hpair : ∀ (lx : List CDJoinRow) (accx : ℚ),
        (annotate_running accx lx).map (fun t => (t.entry.row.acct_type, t.entry.row.amount))
          = lx.map (fun t => (t.row.acct_type, t.row.amount)) := by
      intro lx accx
      have : (annotate_running accx lx).map
          (fun t => (t.entry.row.acct_type, t.entry.row.amount))
          = ((annotate_running accx lx).map (fun v => v.entry)).map
            (fun t => (t.row.acct_type, t.row.amount)) := by
        rw [List.map_map]
        rfl
      rw [this, annotate_entries]
    rw [hpair, hpair] at hsame
    exact hsame

/-- Witness for C5: with sequences 1 and 3 stored, the next VP number is
`1-004-2025`. -/
theorem claim_C5_generate_number_witness :
    generate_number c5DB "VP" 2025 = mkNumber 4 2025 ∧
    mkNumber 4 2025 = "1-004-2025" := by
  have h := claim_C5_generate_number c5DB "VP" 2025 [1, 3] (by decide)
  exact ⟨h, by decide⟩

unseal Rat.mul Rat.add Rat.inv Rat.sub in

/-- Witness for C4 at Scenario A: balanced lines are accepted and the
voucher is created. -/
theorem claim_C4_balance_gate_witness :
    (create_voucher_payable c1DB c4Args).1.success = true := by
  exact (claim_C4_balance_gate c1DB c4Args).2.2 (by decide)
    ((validate_iff c4Args.credit_debit_lines c4Args.total_amount).mp (by decide))
    { acct_code := "VEND001", acct_description := "Vendor One", is_active := true }
    (by decide) (by decide) (by decide) rfl

unseal Rat.mul Rat.add Rat.inv Rat.sub in

/-- Witness for C9 on `c9DB`: the first running balance equals the signed
sum of the first entry. -/
theorem claim_C9_running_balance_witness :
    get_account_ledger c9DB "1000" none none = some c9View ∧
    (c9View.transactions.get ⟨0, by decide⟩).running_balance
      = ((c9View.transactions.take 1).map signedAmount).sum := by
  have hv : get_account_ledger c9DB "1000" none none = some c9View := by decide
  exact ⟨hv, (claim_C9_running_balance c9DB "1000" none none c9View hv).1 0 (by decide)⟩

lemma sum_filter_map_amount (p : CDRow → Bool) (l : List CDRow) :
    ((l.filter p).map (fun r => r.amount)).sum
      = (l.map (fun r => if p r then r.amount else 0)).sum := by
  induction l with
  | nil => rfl
  | cons a l ih =>
    by_cases ha : p a = true
    · simp only [List.filter_cons, ha, if_true, List.map_cons, List.sum_cons, ih]
    · rw [Bool.not_eq_true] at ha
      simp only [List.filter_cons, ha, Bool.false_eq_true, if_false, List.map_cons,
        List.sum_cons, ih]
      ring

/-- Grouping the rows by `(acct_code, acct_description)` and summing the
per-group side totals recovers the global side total. -/
lemma tb_side_sum (rows : List CDRow) (p : CDRow → Bool) :
    ((rows.map (fun r => (r.acct_code, r.acct_description))).dedup.map (fun k =>
        (((rows.filter (fun r => (r.acct_code, r.acct_description) == k)).filter p).map
          (fun r => r.amount)).sum)).sum
      = ((rows.filter p).map (fun r => r.amount)).sum := by
  have h₁ : ((rows.map (fun r => (r.acct_code, r.acct_description))).dedup.map (fun k =>
        (((rows.filter (fun r => (r.acct_code, r.acct_description) == k)).filter p).map
          (fun r => r.amount)).sum)).sum
      = ((rows.map (fun r => (r.acct_code, r.acct_description))).dedup.map (fun k =>
        ((rows.filter (fun r => (r.acct_code, r.acct_description) == k)).map
          (fun r => if p r then r.amount else 0)).sum)).sum := by
    apply congrArg
    apply List.map_congr_left
    intro k _
    exact sum_filter_map_amount p _
  rw [h₁,
    sum_groups (fun r => (r.acct_code, r.acct_description))
      (fun r => if p r then r.amount else 0)
      (rows.map (fun r => (r.acct_code, r.acct_description))).dedup
      (List.nodup_dedup _) rows
      (fun x hx => List.mem_dedup.mpr (List.mem_map_of_mem _ hx)),
    ← sum_filter_map_amount p rows]

lemma tbEntryOf_total_debits (rows : List CDRow) (k : String × String) :
    (tbEntryOf rows k).total_debits
      = (((rows.filter (fun r => (r.acct_code, r.acct_description) == k)).filter
          (fun r => r.acct_type == "D")).map (fun r => r.amount)).sum := rfl

lemma tbEntryOf_total_credits (rows : List CDRow) (k : String × String) :
    (tbEntryOf rows k).total_credits
      = (((rows.filter (fun r => (r.acct_code, r.acct_description) == k)).filter
          (fun r => r.acct_type == "C")).map (fun r => r.amount)).sum := rfl

lemma tbEntryOf_balance (rows : List CDRow) (k : String × String) :
    (tbEntryOf rows k).balance
      = (tbEntryOf rows k).total_debits - (tbEntryOf rows k).total_credits := rfl

/-- The HAVING filter drops only all-zero entries, so it does not change the
debit column total. -/
lemma tb_kept_debits (rows : List CDRow) (keys : List (String × String)) :
    ((((keys.map (tbEntryOf rows)).filter
        (fun e => !(e.total_debits == 0) || !(e.total_credits == 0))).map
      (fun e => e.total_debits)).sum)
      = ((keys.map (tbEntryOf rows)).map (fun e => e.total_debits)).sum := by
  rw [← sum_map_filter_split (fun e => !(e.total_debits == 0) || !(e.total_credits == 0))
    (fun e => e.total_debits) (keys.map (tbEntryOf rows))]
  have hz : ((((keys.map (tbEntryOf rows)).filter
      (fun e => !(!(e.total_debits == 0) || !(e.total_credits == 0)))).map
        (fun e => e.total_debits)).sum) = 0 := by
    apply sum_map_of_all_zero
    intro e he
    have hne := (List.mem_filter.mp he).2
    have hb : (e.total_debits == 0) = true := by
      cases hd : (e.total_debits == 0) with
      | true => rfl
      | false =>
        rw [hd] at hne
        simp at hne
    exact eq_of_beq hb
  rw [hz, add_zero]

/-- Same for the credit column. -/
lemma tb_kept_credits (rows : List CDRow) (keys : List (String × String)) :
    ((((keys.map (tbEntryOf rows)).filter
        (fun e => !(e.total_debits == 0) || !(e.total_credits == 0))).map
      (fun e => e.total_credits)).sum)
      = ((keys.map (tbEntryOf rows)).map (fun e => e.total_credits)).sum := by
  rw [← sum_map_filter_split (fun e => !(e.total_debits == 0) || !(e.total_credits == 0))
    (fun e => e.total_credits) (keys.map (tbEntryOf rows))]
  have hz : ((((keys.map (tbEntryOf rows)).filter
      (fun e => !(!(e.total_debits == 0) || !(e.total_credits == 0)))).map
        (fun e => e.total_credits)).sum) = 0 := by
    apply sum_map_of_all_zero
    intro e he
    have hne := (List.mem_filter.mp he).2
    have hb : (e.total_credits == 0) = true := by
      cases hd : (e.total_credits == 0) with
      | true => rfl
      | false =>
        rw [hd] at hne
        simp at hne
    exact eq_of_beq hb
  rw [hz, add_zero]

lemma cd_get_trial_balance_debits (db : DB) (as_of_date : Option PyDate) :
    ((cd_get_trial_balance db as_of_date).map (fun e => e.total_debits)).sum
      = specTotalDebits db as_of_date := by
  unfold cd_get_trial_balance specTotalDebits
  dsimp only
  rw [((List.perm_insertionSort _ _).map (fun e : TBEntry => e.total_debits)).sum_eq,
    tb_kept_debits, List.map_map]
  have hcomp : ((fun e : TBEntry => e.total_debits) ∘
      tbEntryOf (db.cd.filter (tbDateOk as_of_date)))
      = fun k => ((((db.cd.filter (tbDateOk as_of_date)).filter
          (fun r => (r.acct_code, r.acct_description) == k)).filter
            (fun r => r.acct_type == "D")).map (fun r => r.amount)).sum := rfl
  rw [hcomp]
  exact tb_side_sum (db.cd.filter (tbDateOk as_of_date)) (fun r => r.acct_type == "D")

lemma cd_get_trial_balance_credits (db : DB) (as_of_date : Option PyDate) :
    ((cd_get_trial_balance db as_of_date).map (fun e => e.total_credits)).sum
      = specTotalCredits db as_of_date := by
  unfold cd_get_trial_balance specTotalCredits
  dsimp only
  rw [((List.perm_insertionSort _ _).map (fun e : TBEntry => e.total_credits)).sum_eq,
    tb_kept_credits, List.map_map]
  have hcomp : ((fun e : TBEntry => e.total_credits) ∘
      tbEntryOf (db.cd.filter (tbDateOk as_of_date)))
      = fun k => ((((db.cd.filter (tbDateOk as_of_date)).filter
          (fun r => (r.acct_code, r.acct_description) == k)).filter
            (fun r => r.acct_type == "C")).map (fun r => r.amount)).sum := rfl
  rw [hcomp]
  exact tb_side_sum (db.cd.filter (tbDateOk as_of_date)) (fun r => r.acct_type == "C")

lemma grp_filter_eq (rows : List CDRow) (k : String × String) (side : String) :
    (rows.filter (fun r => (r.acct_code, r.acct_description) == k)).filter
        (fun r => r.acct_type == side)
      = rows.filter (fun r => r.acct_code == k.1 && r.acct_description == k.2
          && r.acct_type == side) := by
  rw [List.filter_filter]
  apply List.filter_congr
  intro r _
  cases k with
  | mk k₁ k₂ =>
    show (r.acct_type == side && ((r.acct_code, r.acct_description) == (k₁, k₂)))
        = ((r.acct_code == k₁ && r.acct_description == k₂) && r.acct_type == side)
    cases h₁ : (r.acct_code == k₁) <;> cases h₂ : (r.acct_description == k₂)
      <;> cases h₃ : (r.acct_type == side)
      <;> simp [instBEqProd, h₁, h₂, h₃]

/-- C8: the trial balance reports, per account (code and description), the
total debits, total credits and net balance (debits minus credits) of that
account's lines within the date filter, and its overall `balanced` flag is
true exactly when the absolute difference between the sum of all debits and
the sum of all credits across all accounts is strictly below 0.01. -/
theorem claim_C8_trial_balance (db : DB) (as_of_date : Option PyDate) :
    ((get_trial_balance db as_of_date).balanced = true ↔
       |specTotalDebits db as_of_date - specTotalCredits db as_of_date| < 1 / 100) ∧
    (∀ e ∈ (get_trial_balance db as_of_date).trial_balance,
       e.total_debits = acctDebitTotal db as_of_date e.acct_code e.acct_description ∧
       e.total_credits = acctCreditTotal db as_of_date e.acct_code e.acct_description ∧
       e.balance = e.total_debits - e.total_credits) := by
  constructor
  · show (decide (|((cd_get_trial_balance db as_of_date).map
        (fun e => e.total_debits)).sum
      - ((cd_get_trial_balance db as_of_date).map (fun e => e.total_credits)).sum|
        < 1 / 100) = true) ↔ _
    rw [cd_get_trial_balance_debits, cd_get_trial_balance_credits]
    exact decide_eq_true_iff
  · intro e he
    have he₁ : e ∈ cd_get_trial_balance db as_of_date := he
    unfold cd_get_trial_balance at he₁
    dsimp only at he₁
    rw [List.Perm.mem_iff (List.perm_insertionSort _ _)] at he₁
    have he₂ := (List.mem_filter.mp he₁).1
    obtain ⟨k, hk, rfl⟩ := List.mem_map.mp he₂
    refine ⟨?_, ?_, tbEntryOf_balance _ k⟩
    · show (tbEntryOf (db.cd.filter (tbDateOk as_of_date)) k).total_debits
        = acctDebitTotal db as_of_date k.1 k.2
      rw [tbEntryOf_total_debits]
      unfold acctDebitTotal
      rw [grp_filter_eq]
    · show (tbEntryOf (db.cd.filter (tbDateOk as_of_date)) k).total_credits
        = acctCreditTotal db as_of_date k.1 k.2
      rw [tbEntryOf_total_credits]
      unfold acctCreditTotal
      rw [grp_filter_eq]

unseal Rat.mul Rat.add Rat.inv Rat.sub in

/-- Witness for C8 on `c8DB`: the 100-debit / 100-credit ledger balances
and the Cash entry matches its per-account totals. -/
theorem claim_C8_trial_balance_witness :
    (get_trial_balance c8DB none).balanced = true ∧
    (c8Entry.total_debits = acctDebitTotal c8DB none c8Entry.acct_code
        c8Entry.acct_description ∧
     c8Entry.total_credits = acctCreditTotal c8DB none c8Entry.acct_code
        c8Entry.acct_description ∧
     c8Entry.balance = c8Entry.total_debits - c8Entry.total_credits) := by
  have h := claim_C8_trial_balance c8DB none
  exact ⟨h.1.mpr (by decide), h.2 c8Entry (by decide)⟩

end FVS
